import Mathlib

/-!
Verification development for the scielo_exports_doaj exporter.

This file shallowly embeds the execution core of the repository
(`exporter/main.py`, `exporter/doaj.py`) in Lean 4:

* JSON values and Python-dict operations (insertion-ordered association
  lists, as CPython dicts preserve insertion order);
* the `PoisonPill` cancellation token and the `JobExecutor` worker-pool
  loop.  Worker scheduling is nondeterministic, so `JobExecutor.run` is
  parameterised by the completion order in which `as_completed` yields
  the futures; a faithful run uses a completion order that is a
  permutation of the submitted job list, which theorems take as a
  hypothesis.  The callback loop itself is serial, exactly as in the
  source;
* the DOAJ payload builder `DOAJExporterXyloseArticle` with its
  `bibjson` setters, over an `Article` structure that models the xylose
  document accessors used by the builder (xylose is an external
  collaborator, so its accessors are modelled as record fields);
* the single-document and bulk exporter adapters with their command
  state machines and HTTP error translation;
* the orchestration functions `process_document`,
  `execute_get_document`, `process_extracted_documents` and
  `process_documents_in_bulk`.

External collaborators (the HTTP transport, the ArticleMeta client, the
filesystem) are modelled as oracle functions, and observable actions
(HTTP calls, adapter constructions, file writes, log lines) are
recorded as explicit `Effect` values.
-/

set_option autoImplicit false

namespace ScieloDoaj

/-- JSON values, the shape of `resp.json()` bodies and request payloads.
Objects are insertion-ordered key/value lists, like CPython dicts. -/
inductive JVal where
  | s (v : String)
  | n (v : Int)
  | b (v : Bool)
  | arr (items : List JVal)
  | obj (fields : List (String × JVal))
  | null

/-- A JSON object / Python dict body. -/
abbrev Obj := List (String × JVal)

/-- Python `d[k] = v`: overwrite in place if the key exists (keeping its
position), otherwise append at the end, as insertion-ordered dicts do. -/
def jSet : Obj → String → JVal → Obj
  | [], k, v => [(k, v)]
  | (k', v') :: rest, k, v =>
    if k' = k then (k, v) :: rest else (k', v') :: jSet rest k v

/-- Python `d.get(k)`: `none` when the key is absent. -/
def jGet : Obj → String → Option JVal
  | [], _ => none
  | (k', v') :: rest, k => if k' = k then some v' else jGet rest k

/-- Python `d.setdefault(k, v)` (the uses in the source ignore the
returned value, so only the dict after the call is modelled). -/
def jSetdefault (o : Obj) (k : String) (v : JVal) : Obj :=
  if (jGet o k).isSome then o else o ++ [(k, v)]

/-- Python truthiness of a JSON value (`if x:`). -/
def jTruthy : JVal → Bool
  | .s v => !v.isEmpty
  | .n v => v != 0
  | .b v => v
  | .arr l => !l.isEmpty
  | .obj o => !o.isEmpty
  | .null => false

/-- Truthiness of an optional string (`None` and `""` are falsy). -/
def truthyS : Option String → Bool
  | some v => !v.isEmpty
  | none => false

mutual

/-- Python `str()` of a JSON value, as interpolated by an f-string. -/
def pyStr : JVal → String
  | .s v => v
  | .n v => toString v
  | .b true => "True"
  | .b false => "False"
  | .arr l => "[" ++ pyReprList l ++ "]"
  | .obj o => "\x7b" ++ pyReprObj o ++ "\x7d"
  | .null => "None"

/-- Python `repr()` of a JSON value (used for container elements). -/
def pyRepr : JVal → String
  | .s v => String.singleton (Char.ofNat 39) ++ v ++ String.singleton (Char.ofNat 39)
  | .n v => toString v
  | .b true => "True"
  | .b false => "False"
  | .arr l => "[" ++ pyReprList l ++ "]"
  | .obj o => "\x7b" ++ pyReprObj o ++ "\x7d"
  | .null => "None"

/-- Comma-separated `repr()`s of list elements. -/
def pyReprList : List JVal → String
  | [] => ""
  | [x] => pyRepr x
  | x :: xs => pyRepr x ++ ", " ++ pyReprList xs

/-- Comma-separated `repr()`s of dict entries. -/
def pyReprObj : List (String × JVal) → String
  | [] => ""
  | [(k, v)] => pyRepr (.s k) ++ ": " ++ pyRepr v
  | (k, v) :: xs => pyRepr (.s k) ++ ": " ++ pyRepr v ++ ", " ++ pyReprObj xs

end

/-- The exceptions that can cross the embedded functions, covering the
exporter's own exception classes (`exporter/main.py`, `exporter/doaj.py`)
and the built-in Python errors its code can hit. -/
inductive PyExc where
  | articleMetaDocumentNotFound
  | invalidExporterInitData (msg : String)
  | indexExporterHTTPError (msg : String)
  | doajNoRequestData (msg : String)
  | doajNoAuthors
  | doajNoJournalRequiredFields
  | doajNoISSN
  | doajNoDOINorLink (msg : String)
  | indexError (msg : String)
  | keyError (key : String)
  | typeError
  | attributeError
  deriving Repr, DecidableEq

/-- Observable actions of the embedded code: calls to external
collaborators and writes performed by the result sink.
`writeFileJson` is an open-mode-"w" (truncating) write of one JSON
document; `appendJsonLine` is an open-mode-"a" append of one JSON line;
`writeFileLines` is an open-mode-"w" write of a sequence of JSON lines. -/
inductive Effect where
  | getDocumentCall (collection pid : String)
  | adapterCall (index command : String)
  | bulkAdapterCall (index command : String) (docs : List (Option String))
  | commandCall
  | httpCall (method url : String)
  | writeFileJson (path : String) (content : JVal)
  | appendJsonLine (path : String) (content : JVal)
  | writeFileLines (path : String) (lines : List JVal)
  | logError (pid : String)
  | updateBarTick

/-- An HTTP response as seen through `requests`: the status code, the
parsed JSON body, and the text of the `HTTPError` that
`raise_for_status` would raise for it. -/
structure HttpResponse where
  status : Nat
  body : JVal
  errText : String

/-- The HTTP transport oracle: method, url, optional query params,
optional JSON body (the retrying `_send_http_request` transport is an
external collaborator; transient-retry behaviour is internal to it). -/
abbrev HttpOracle := String → String → Option Obj → Option JVal → HttpResponse

/-- Oracle for the DOAJ journal-search GET issued by the payload
builder (`_get_registered_journal_issn`). -/
abbrev SearchOracle := String → HttpResponse

/-- `requests.Response.raise_for_status` raises exactly for status codes
in 400..599. -/
def raisesForStatus (status : Nat) : Bool :=
  400 ≤ status && status < 600

/-- `_send_http_request`: query params are passed only when truthy and
the JSON body only when truthy, exactly as the `if params:` / `if json:`
guards do. -/
def send_http_request (http : HttpOracle) (method url : String)
    (params : Obj) (body : Option JVal) : HttpResponse :=
  http method url (if params.isEmpty then none else some params)
    (body.bind fun j => if jTruthy j then some j else none)

/-- The shared cancellation token (`PoisonPill`), a single mutable
boolean flag, `False` at construction. -/
structure PoisonPill where
  poisoned : Bool
  deriving Repr, DecidableEq

/-- `PoisonPill.__init__`. -/
def PoisonPill.new : PoisonPill := ⟨false⟩

namespace JobExecutor

/-- One job's terminal outcome paired with its argument mapping and the
effects its body performed.  `JobExecutor.run` submits every job with
the executor's shared `poison_pill` and `as_completed` yields each
future exactly once, in the given completion order. -/
def run {α ρ : Type} (func : α → PoisonPill → Except PyExc ρ × List Effect)
    (pp : PoisonPill) (completionOrder : List α) :
    List (α × (Except PyExc ρ × List Effect)) :=
  completionOrder.map fun j => (j, func j pp)

/-- The three callbacks handed to a `JobExecutor`, each producing the
events/effects of one invocation. -/
structure Callbacks (α ρ ε : Type) where
  success : ρ → α → List ε
  exception : PyExc → α → List ε
  update_bar : Unit → List ε

/-- The serial completion loop of `JobExecutor.run`: for each completed
job, exactly one of the success/exception callbacks runs (success on a
normal return, exception on a raise), and then `update_bar` runs in the
`finally` block. -/
def dispatch {α ρ ε : Type} (cb : Callbacks α ρ ε) :
    List (α × (Except PyExc ρ × List Effect)) → List ε
  | [] => []
  | (j, (out, _)) :: rest =>
    ((match out with
      | .ok r => cb.success r j
      | .error e => cb.exception e j) ++ cb.update_bar ()) ++ dispatch cb rest

/-- Callback invocation events, for reasoning about the executor with
abstract callbacks. -/
inductive CallbackEvent (α ρ : Type) where
  | success (result : ρ) (job : α)
  | exception (e : PyExc) (job : α)
  | updateBar

/-- Event-recording callbacks: one event per callback invocation. -/
def traceCallbacks (α ρ : Type) : Callbacks α ρ (CallbackEvent α ρ) where
  success := fun r j => [.success r j]
  exception := fun e j => [.exception e j]
  update_bar := fun _ => [.updateBar]

/-- Whether an event is a success/exception callback invocation. -/
def CallbackEvent.isCallback {α ρ : Type} : CallbackEvent α ρ → Bool
  | .success _ _ => true
  | .exception _ _ => true
  | .updateBar => false

/-- Whether an event is a progress tick. -/
def CallbackEvent.isBar {α ρ : Type} : CallbackEvent α ρ → Bool
  | .updateBar => true
  | _ => false

/-- The job an event belongs to, if it is a callback invocation. -/
def CallbackEvent.jobOf {α ρ : Type} : CallbackEvent α ρ → Option α
  | .success _ j => some j
  | .exception _ j => some j
  | .updateBar => none

/-- The single callback event that completing job `j` triggers. -/
def callbackOf {α ρ : Type} (func : α → PoisonPill → Except PyExc ρ × List Effect)
    (pp : PoisonPill) (j : α) : CallbackEvent α ρ :=
  match (func j pp).1 with
  | .ok r => .success r j
  | .error e => .exception e j

/-- The event trace of one executor run with event-recording callbacks. -/
def runTrace {α ρ : Type} (func : α → PoisonPill → Except PyExc ρ × List Effect)
    (pp : PoisonPill) (completionOrder : List α) : List (CallbackEvent α ρ) :=
  dispatch (traceCallbacks α ρ) (run func pp completionOrder)

/-- The attributes of one `JobExecutor` instance that the interrupt
handler touches.  `poisoned_attr` models the `poisoned` attribute that
`self.poisoned = True` creates on the executor object; it does not
exist (`none`) until that assignment runs, and it is distinct from the
shared `poison_pill`. -/
structure State where
  poison_pill : PoisonPill
  poisoned_attr : Option Bool
  deriving Repr, DecidableEq

/-- `JobExecutor.__init__`: a fresh `PoisonPill`, and no `poisoned`
attribute. -/
def State.new : State := ⟨PoisonPill.new, none⟩

/-- What a run interrupted by `KeyboardInterrupt` leaves behind. -/
structure InterruptedRun (α ρ ε : Type) where
  trace : List ε
  final : State
  logged : List String
  reraisedKeyboardInterrupt : Bool

/-- A `JobExecutor.run` call whose `as_completed` loop is hit by a
`KeyboardInterrupt` after the completions in `completedBeforeInterrupt`
were dispatched.  The handler is translated literally from the source:
it logs "Finalizando...", executes `self.poisoned = True` (an attribute
assignment on the executor object itself), and re-raises. -/
def runInterrupted {α ρ ε : Type} (st : State)
    (func : α → PoisonPill → Except PyExc ρ × List Effect)
    (cb : Callbacks α ρ ε)
    (completedBeforeInterrupt : List α) : InterruptedRun α ρ ε where
  trace := dispatch cb (run func st.poison_pill completedBeforeInterrupt)
  final := { st with poisoned_attr := some true }
  logged := ["Finalizando..."]
  reraisedKeyboardInterrupt := true

end JobExecutor

/-! ## The document model

`xylose.scielodocument.Article` is an external collaborator; the
accessors that `exporter/doaj.py` and `exporter/main.py` use are
modelled as record fields.  `Option String` fields are `none` when the
accessor returns a falsy value (`None` or `""`). -/

/-- One entry of `article.authors`. -/
structure AuthorRec where
  given_names : Option String
  surname : Option String
  xref : Option (List String)
  orcid : Option String

/-- The `article.journal` accessors used by the payload builder. -/
structure JournalRec where
  electronic_issn : Option String
  print_issn : Option String
  publisher_country : Option (String × String)
  languages : List String
  publisher_name : Option String
  title : Option String

/-- The `article.issue` accessors used by the payload builder. -/
structure IssueRec where
  number : Option String
  supplement_number : Option String
  supplement_volume : Option String
  volume : Option String
  sections : List (String × List (String × String))

/-- The xylose `Article` accessors used by the exporter.  `code` is
`article.data.get("code", "")`; `dataIsEmpty` models the truthiness of
`article.data` checked by `process_document`/`execute_get_document`. -/
structure Article where
  code : String
  doaj_id : Option String
  dataIsEmpty : Bool
  original_abstract : Option String
  authors : List AuthorRec
  mixed_affiliations : List (String × String)
  doi : Option String
  journal : JournalRec
  issue : IssueRec
  start_page : Option String
  end_page : Option String
  keywords : List (String × List String)
  original_language : Option String
  fulltexts : List (String × List (String × String))
  original_title : Option String
  section_code : Option String
  document_publication_date : Option String
  issue_publication_date : Option String
  document_type : Option String

/-! ## The DOAJ payload builder (`exporter/doaj.py`) -/

/-- The resolved configuration the builder reads through
`config.get`: the values of `DOAJ_API_URL` and `DOAJ_API_KEY`
(`""` when unset and without a default). -/
structure DoajConfig where
  api_url : String
  api_key : String

/-- `DOAJExporterXyloseArticle` state: the wrapped article, the
timestamp `_now` (in the source the default is `utils.utcnow()`
evaluated once at import time, hence a string), the mutable `_data`
payload dict, and the api config resolved by `_set_api_config`. -/
structure DOAJExporterXyloseArticle where
  article : Article
  now : String
  data : Obj
  api_url : String
  api_key : String

namespace DOAJExporterXyloseArticle

/-- `DOAJExporterXyloseArticle.__init__` composed with
`_set_api_config`: raise when either config variable is unset, then
seed `_data` with the article's `doaj_id` when present and truthy. -/
def init (cfg : DoajConfig) (article : Article) (now : String) :
    Except PyExc DOAJExporterXyloseArticle := do
  if cfg.api_url.isEmpty then
    throw (.doajNoRequestData "No DOAJ_API_URL set")
  else if cfg.api_key.isEmpty then
    throw (.doajNoRequestData "No DOAJ_API_KEY set")
  else
    return { article := article
             now := now
             data := if truthyS article.doaj_id then
                 [("id", .s (article.doaj_id.getD ""))]
               else []
             api_url := cfg.api_url
             api_key := cfg.api_key }

/-- `self.crud_article_put_url`. -/
def crud_article_put_url (e : DOAJExporterXyloseArticle) : String :=
  e.api_url ++ "articles"

/-- `self.search_journal_url`. -/
def search_journal_url (e : DOAJExporterXyloseArticle) : String :=
  e.api_url ++ "search/journals/"

/-- `self.bulk_articles_url`. -/
def bulk_articles_url (e : DOAJExporterXyloseArticle) : String :=
  e.api_url ++ "bulk/articles"

/-- The `id` property: `self._data["id"]`, or `None` when the key is
absent (the `except KeyError` branch falls through and returns `None`). -/
def id (e : DOAJExporterXyloseArticle) : JVal :=
  (jGet e.data "id").getD .null

/-- The `crud_article_url` property: raises
`DOAJExporterXyloseArticleNoRequestData` when `_data` has no `id`. -/
def crud_article_url (e : DOAJExporterXyloseArticle) : Except PyExc String :=
  match jGet e.data "id" with
  | some v => .ok (e.api_url ++ "articles/" ++ pyStr v)
  | none => .error (.doajNoRequestData "No DOAJ ID for article")

/-- The `params_request` property. -/
def params_request (e : DOAJExporterXyloseArticle) : Obj :=
  [("api_key", .s e.api_key)]

/-- `post_response`: `{"index_id": response.get("id"), "status":
response.get("status")}` (a non-dict body has no `.get`). -/
def post_response (response : JVal) : Except PyExc Obj :=
  match response with
  | .obj o => .ok [("index_id", (jGet o "id").getD .null),
                   ("status", (jGet o "status").getD .null)]
  | _ => .error .attributeError

/-- `error_response`: `response.get("error", "")`. -/
def error_response (response : JVal) : Except PyExc JVal :=
  match response with
  | .obj o => .ok ((jGet o "error").getD (.s ""))
  | _ => .error .attributeError

end DOAJExporterXyloseArticle

/-! ### The `bibjson` setters -/

/-- A Python list comprehension with a fallible body: evaluate the body
on each element in order, propagating the first raised exception. -/
def mapMExcept {α β : Type} (f : α → Except PyExc β) :
    List α → Except PyExc (List β)
  | [] => .ok []
  | x :: xs =>
    match f x with
    | .error e => .error e
    | .ok y =>
      match mapMExcept f xs with
      | .error e => .error e
      | .ok ys => .ok (y :: ys)

/-- Read `self._data["bibjson"]` (a `KeyError` if absent, a `TypeError`
if its value is not a dict), apply `f` to it, and store the result
back; this is the shape of every `_set_bibjson_*` mutation. -/
def modifyBibjson (f : Obj → Except PyExc Obj) (d : Obj) : Except PyExc Obj :=
  match jGet d "bibjson" with
  | none => .error (.keyError "bibjson")
  | some (.obj bj) => do
    let bj' ← f bj
    return jSet d "bibjson" (.obj bj')
  | some _ => .error .typeError

/-- `_set_bibjson_abstract`. -/
def set_bibjson_abstract (art : Article) (d : Obj) : Except PyExc Obj :=
  match art.original_abstract with
  | some a => if a.isEmpty then .ok d
      else modifyBibjson (fun bj => .ok (jSet bj "abstract" (.s a))) d
  | none => .ok d

/-- Whether a character is matched by the regex class `[0-9]` (which
`\d` also denotes in this pattern). -/
def isAsciiDigit (c : Char) : Bool :=
  '0' ≤ c && c ≤ '9'

/-- `re.fullmatch` of `ORCID_REGEX_VALIDATION` against
`https://orcid.org/{orcid}`: since the URL prefix of the pattern is
fixed, the match succeeds exactly when the orcid suffix has the shape
`[0-9]{4}-[0-9]{4}-[0-9]{4}-\d{3}[\dX]`. -/
def validOrcidChars : List Char → Bool
  | [a, b, c, d, '-', e, f, g, h, '-', i, j, k, l, '-', m, n, o, p] =>
    isAsciiDigit a && isAsciiDigit b && isAsciiDigit c && isAsciiDigit d &&
    isAsciiDigit e && isAsciiDigit f && isAsciiDigit g && isAsciiDigit h &&
    isAsciiDigit i && isAsciiDigit j && isAsciiDigit k && isAsciiDigit l &&
    isAsciiDigit m && isAsciiDigit n && isAsciiDigit o &&
    (isAsciiDigit p || p = 'X')
  | _ => false

/-- The author dict built for one entry of `article.authors`. -/
def authorData (affs : List (String × String)) (a : AuthorRec) :
    Except PyExc Obj := do
  let base : Obj := [("name", .s ((a.given_names.getD "") ++ " " ++ (a.surname.getD "")))]
  let xrefList := a.xref.getD [""]
  match xrefList.head? with
  | none => throw (.indexError "list index out of range")
  | some affIndex =>
    let withAff :=
      if affIndex.isEmpty then base
      else jSet base "affiliation"
        (.s ((affs.lookup affIndex).getD ""))
    if truthyS a.orcid && validOrcidChars (a.orcid.getD "").data then
      return jSet withAff "orcid_id" (.s ("https://orcid.org/" ++ a.orcid.getD ""))
    else
      return withAff

/-- `_set_bibjson_author`: raise when the article has no authors,
`setdefault` the `author` list, and append one dict per author (a
non-list existing `author` value has no `.append`). -/
def set_bibjson_author (art : Article) (d : Obj) : Except PyExc Obj :=
  if art.authors.isEmpty then .error .doajNoAuthors
  else
    modifyBibjson (fun bj => do
      let bj := jSetdefault bj "author" (.arr [])
      match jGet bj "author" with
      | some (.arr cur) => do
        let newAuthors ← mapMExcept (authorData art.mixed_affiliations) art.authors
        return jSet bj "author" (.arr (cur ++ newAuthors.map JVal.obj))
      | _ => .error .attributeError) d

/-- Python `x[0]` on a JSON value: list head, first character of a
string, `KeyError`/`TypeError` otherwise. -/
def jIndex0 : JVal → Except PyExc JVal
  | .arr (h :: _) => .ok h
  | .arr [] => .error (.indexError "list index out of range")
  | .s v => match v.data.head? with
    | some c => .ok (.s (String.singleton c))
    | none => .error (.indexError "string index out of range")
  | .obj _ => .error (.keyError "0")
  | _ => .error .typeError

/-- One iteration of the `_get_registered_journal_issn` loop body for a
candidate issn: `none` means the `continue` paths (falsy issn, non-200
response, or falsy `results`). -/
def tryRegisteredIssn (search : SearchOracle) (url : String)
    (issn? : Option String) : Option (Except PyExc (JVal × String)) :=
  match issn? with
  | none => none
  | some issn =>
    if issn.isEmpty then none
    else
      let resp := search (url ++ "issn:" ++ issn)
      match resp.body with
      | .obj o =>
        if resp.status ≠ 200 || !jTruthy ((jGet o "results").getD .null) then none
        else some (do
          let sr ← jIndex0 ((jGet o "results").getD .null)
          match sr with
          | .obj srObj =>
            let bibjson := (jGet srObj "bibjson").getD (.obj [])
            match bibjson with
            | .obj bj =>
              let eissn := (jGet bj "eissn").getD .null
              if jTruthy eissn then return (eissn, "eissn")
              else return ((jGet bj "pissn").getD .null, "pissn")
            | _ => throw .attributeError
          | _ => throw .attributeError)
      | _ =>
        -- `resp.json().get(...)` on a non-dict body
        if resp.status ≠ 200 then none else some (throw .attributeError)

/-- `_get_registered_journal_issn`: try the electronic then the print
issn; raise `DOAJExporterXyloseArticleNoISSNException` when the loop
finishes without returning. -/
def get_registered_journal_issn (search : SearchOracle) (searchUrl : String)
    (art : Article) : Except PyExc (JVal × String) :=
  match tryRegisteredIssn search searchUrl art.journal.electronic_issn with
  | some r => r
  | none =>
    match tryRegisteredIssn search searchUrl art.journal.print_issn with
    | some r => r
    | none => .error .doajNoISSN

/-- `_set_bibjson_identifier`. -/
def set_bibjson_identifier (search : SearchOracle) (searchUrl : String)
    (art : Article) (d : Obj) : Except PyExc Obj :=
  match get_registered_journal_issn search searchUrl art with
  | .error e => .error e
  | .ok (issn, issnType) =>
    modifyBibjson (fun bj =>
      let ids : List JVal := [.obj [("id", issn), ("type", .s issnType)]]
      let ids := if truthyS art.doi then
          ids ++ [.obj [("id", .s (art.doi.getD "")), ("type", .s "doi")]]
        else ids
      .ok (jSet bj "identifier" (.arr ids))) d

/-- Whitespace as stripped by Python `str.strip()`. -/
def isPySpace (c : Char) : Bool :=
  c = ' ' || c = '\t' || c = '\n' || c = '\r' || c = '\x0b' || c = '\x0c'

/-- `str.strip()` over the character list. -/
def listTrim (l : List Char) : List Char :=
  ((l.dropWhile isPySpace).reverse.dropWhile isPySpace).reverse

/-- `label_issue.replace("ahead", "")`: remove every non-overlapping
occurrence of `ahead`, scanning left to right. -/
def removeAhead : List Char → List Char
  | 'a' :: 'h' :: 'e' :: 'a' :: 'd' :: rest => removeAhead rest
  | c :: rest => c :: removeAhead rest
  | [] => []

/-- `_get_issue_number`: the issue label with `ahead` removed,
supplement suffixes appended, a leading `0 ` and a trailing ` 0`
stripped once each (the anchored regex substitutions), then
whitespace-trimmed. -/
def get_issue_number (art : Article) : String :=
  let label : List Char := match art.issue.number with
    | some nb => if nb.isEmpty then [] else removeAhead nb.data
    | none => []
  let label := if truthyS art.issue.supplement_number then
      label ++ (" suppl " ++ art.issue.supplement_number.getD "").data
    else label
  let label := if truthyS art.issue.supplement_volume then
      label ++ (" suppl " ++ art.issue.supplement_volume.getD "").data
    else label
  let label := match label with
    | '0' :: ' ' :: rest => rest
    | other => other
  let label := match label.reverse with
    | '0' :: ' ' :: rrest => rrest.reverse
    | _ => label
  String.mk (listTrim label)

/-- The `journal` dict that `_set_bibjson_journal` builds, raising
`DOAJExporterXyloseArticleNoJournalRequiredFields` at the first falsy
required field (country, language, publisher, title, checked in that
order); the optional fields (volume, number, start/end page) are set
only when truthy. -/
def journalPayload (art : Article) : Except PyExc Obj :=
  match art.journal.publisher_country with
  | none => .error .doajNoJournalRequiredFields
  | some (code, _) =>
    if art.journal.languages.isEmpty then .error .doajNoJournalRequiredFields
    else match art.journal.publisher_name with
      | none => .error .doajNoJournalRequiredFields
      | some p =>
        if p.isEmpty then .error .doajNoJournalRequiredFields
        else match art.journal.title with
          | none => .error .doajNoJournalRequiredFields
          | some t =>
            if t.isEmpty then .error .doajNoJournalRequiredFields
            else
              let journal : Obj := [("country", .s code)]
              let journal := jSet journal "language"
                (.arr (art.journal.languages.map JVal.s))
              let journal := jSet journal "publisher" (.s p)
              let journal := jSet journal "title" (.s t)
              let journal := if truthyS art.issue.volume then
                  jSet journal "volume" (.s (art.issue.volume.getD ""))
                else journal
              let issueNumber := get_issue_number art
              let journal := if issueNumber.isEmpty then journal
                else jSet journal "number" (.s issueNumber)
              let journal := if truthyS art.start_page then
                  jSet journal "start_page" (.s (art.start_page.getD ""))
                else journal
              let journal := if truthyS art.end_page then
                  jSet journal "end_page" (.s (art.end_page.getD ""))
                else journal
              .ok journal

/-- `_set_bibjson_journal`: build the journal dict and store it under
`bibjson.journal`. -/
def set_bibjson_journal (art : Article) (d : Obj) : Except PyExc Obj :=
  match journalPayload art with
  | .error e => .error e
  | .ok journal =>
    modifyBibjson (fun bj => .ok (jSet bj "journal" (.obj journal))) d

/-- `keywords.get(self._article.original_language())`, the keyword
list for the article's original language (empty when absent). -/
def keywordsFor (art : Article) : List String :=
  match art.original_language with
  | some lang => (art.keywords.lookup lang).getD []
  | none => []

/-- `_set_bibjson_keywords`: set only when the keywords dict is truthy
and has a truthy entry for the original language. -/
def set_bibjson_keywords (art : Article) (d : Obj) : Except PyExc Obj :=
  if art.keywords.isEmpty || (keywordsFor art).isEmpty then .ok d
  else modifyBibjson (fun bj =>
    .ok (jSet bj "keywords" (.arr ((keywordsFor art).map JVal.s)))) d

/-- `MIME_TYPE[content_type]` (a missing key raises `KeyError`). -/
def mimeType : String → Except PyExc String
  | "html" => .ok "text/html"
  | "pdf" => .ok "application/pdf"
  | other => .error (.keyError other)

/-- The link dicts contributed by one `fulltexts()` entry. -/
def linksOfFulltext (entry : String × List (String × String)) :
    Except PyExc (List JVal) := do
  let mime ← mimeType entry.1
  return (entry.2.filterMap fun (_, url) =>
    if url.isEmpty then none
    else some (.obj [("content_type", .s mime), ("type", .s "fulltext"),
                     ("url", .s url)]))

/-- `_set_bibjson_link`: when `fulltexts()` is truthy, `setdefault` the
`link` list and append one dict per truthy url; then raise
`DOAJExporterXyloseArticleNoDOINorlink` when neither a `link` value nor
a doi is truthy. -/
def set_bibjson_link (art : Article) (d : Obj) : Except PyExc Obj :=
  modifyBibjson (fun bj => do
    let bj' ← if art.fulltexts.isEmpty then pure bj
      else do
        let bj := jSetdefault bj "link" (.arr [])
        match jGet bj "link" with
        | some (.arr cur) => do
          let newLinks ← mapMExcept linksOfFulltext art.fulltexts
          return jSet bj "link" (.arr (cur ++ newLinks.flatten))
        | _ => .error .attributeError
    if jTruthy ((jGet bj' "link").getD .null) || truthyS art.doi then
      return bj'
    else
      throw (.doajNoDOINorLink
        "Documento não possui DOI ou links para texto completo")) d

/-- `_set_bibjson_title`: the original title, or the issue section
label for the article's section code and original language, or the
placeholder `Documento sem título`. -/
def set_bibjson_title (art : Article) (d : Obj) : Except PyExc Obj :=
  let title := match art.original_title with
    | some t => if t.isEmpty then none else some t
    | none => none
  let title := match title with
    | some t => t
    | none =>
      let sections := match art.section_code with
        | some sc => (art.issue.sections.lookup sc).getD []
        | none => []
      match art.original_language with
      | some lang => (sections.lookup lang).getD "Documento sem título"
      | none => "Documento sem título"
  modifyBibjson (fun bj => .ok (jSet bj "title" (.s title))) d

/-- `str.split("-")` over the character list. -/
def splitDash : List Char → List (List Char)
  | [] => [[]]
  | c :: rest =>
    if c = '-' then [] :: splitDash rest
    else match splitDash rest with
      | [] => [[c]]
      | h :: t => (c :: h) :: t

/-- The numeric value of a decimal digit string. -/
def digitsToNat (l : List Char) : Nat :=
  l.foldl (fun n c => n * 10 + (c.toNat - 48)) 0

/-- Whether a digit group is acceptable for a `strptime` field with the
given maximum width. -/
def validDigits (l : List Char) (maxLen : Nat) : Bool :=
  !l.isEmpty && l.length ≤ maxLen && l.all isAsciiDigit

/-- The number of days of a month, with the Gregorian leap rule, as
`strptime` validates day-of-month. -/
def daysInMonth (y m : Nat) : Nat :=
  if m = 2 then
    if y % 4 = 0 && (y % 100 ≠ 0 || y % 400 = 0) then 29 else 28
  else if m = 4 || m = 6 || m = 9 || m = 11 then 30
  else 31

/-- `datetime.strptime(s, "%Y-%m-%d")` as a year/month pair. -/
def parseYMD (s : String) : Option (Nat × Nat) :=
  match splitDash s.data with
  | [ys, ms, ds] =>
    if validDigits ys 4 && validDigits ms 2 && validDigits ds 2 then
      let y := digitsToNat ys
      let m := digitsToNat ms
      let d := digitsToNat ds
      if 1 ≤ y && 1 ≤ m && m ≤ 12 && 1 ≤ d && d ≤ daysInMonth y m then
        some (y, m)
      else none
    else none
  | _ => none

/-- `datetime.strptime(s, "%Y-%m")` as a year/month pair. -/
def parseYM (s : String) : Option (Nat × Nat) :=
  match splitDash s.data with
  | [ys, ms] =>
    if validDigits ys 4 && validDigits ms 2 then
      let y := digitsToNat ys
      let m := digitsToNat ms
      if 1 ≤ y && 1 ≤ m && m ≤ 12 then some (y, m) else none
    else none
  | _ => none

/-- `self._article.document_publication_date or
self._article.issue_publication_date`. -/
def pubDateOf (art : Article) : Option String :=
  if truthyS art.document_publication_date then
    art.document_publication_date
  else art.issue_publication_date

/-- `_set_bibjson_month_and_year`: parse the first truthy publication
date with `%Y-%m-%d` then `%Y-%m` (only `ValueError` is caught); set
numeric month/year on success, store the raw string as `year` when
neither format parses, and raise the uncaught `TypeError` of
`strptime(None, ...)` when the `or` of the two dates yields `None`. -/
def set_bibjson_month_and_year (art : Article) (d : Obj) : Except PyExc Obj :=
  match pubDateOf art with
  | none => .error .typeError
  | some sp =>
    match (parseYMD sp).orElse (fun _ => parseYM sp) with
    | some (y, m) =>
      modifyBibjson (fun bj =>
        let bj := if m ≠ 0 then jSet bj "month" (.n (Int.ofNat m)) else bj
        let bj := if y ≠ 0 then jSet bj "year" (.n (Int.ofNat y)) else bj
        .ok bj) d
    | none =>
      modifyBibjson (fun bj => .ok (jSet bj "year" (.s sp))) d

/-- `_set_es_type`: set the top-level `es_type` when the document type
is truthy. -/
def set_es_type (art : Article) (d : Obj) : Except PyExc Obj :=
  if truthyS art.document_type then
    .ok (jSet d "es_type" (.s (art.document_type.getD "")))
  else .ok d

/-- The sequence of `_set_bibjson_*` / `_set_es_type` calls shared
verbatim by `post_request` and `put_request`. -/
def applySetters (search : SearchOracle) (searchUrl : String) (art : Article)
    (d : Obj) : Except PyExc Obj := do
  let d ← set_bibjson_abstract art d
  let d ← set_bibjson_author art d
  let d ← set_bibjson_identifier search searchUrl art d
  let d ← set_bibjson_journal art d
  let d ← set_bibjson_keywords art d
  let d ← set_bibjson_link art d
  let d ← set_bibjson_title art d
  let d ← set_bibjson_month_and_year art d
  let d ← set_es_type art d
  return d

namespace DOAJExporterXyloseArticle

/-- The `post_request` property: set both `created_date` and
`last_updated` to `_now`, `setdefault` `bibjson`, and run the setters. -/
def post_request (search : SearchOracle) (e : DOAJExporterXyloseArticle) :
    Except PyExc Obj :=
  let d := jSet (jSet e.data "created_date" (.s e.now)) "last_updated" (.s e.now)
  let d := jSetdefault d "bibjson" (.obj [])
  applySetters search e.search_journal_url e.article d

/-- `put_request(data)`: replace `_data` with the fetched
representation (a non-dict raises on the first subscript), refresh only
`last_updated`, `setdefault` `bibjson`, and run the setters. -/
def put_request (search : SearchOracle) (e : DOAJExporterXyloseArticle)
    (data : JVal) : Except PyExc Obj :=
  match data with
  | .obj body =>
    let d := jSet body "last_updated" (.s e.now)
    let d := jSetdefault d "bibjson" (.obj [])
    applySetters search e.search_journal_url e.article d
  | _ => .error .typeError

end DOAJExporterXyloseArticle

/-! ## The single-document exporter adapter (`exporter/main.py`) -/

/-- The bound command method selected by
`XyloseArticleExporterAdapter.__init__` from the command string. -/
inductive SingleCommand where
  | export | update | get | delete
  deriving Repr, DecidableEq

/-- A constructed `XyloseArticleExporterAdapter`: the validated index,
the resolved command function, the wrapped `index_exporter`, and
`_pid = article.data.get("code", "")`. -/
structure XyloseArticleExporterAdapter where
  index : String
  command : SingleCommand
  index_exporter : DOAJExporterXyloseArticle
  pid : String

namespace XyloseArticleExporterAdapter

/-- `XyloseArticleExporterAdapter.__init__`: an unknown index raises
`InvalidExporterInitData` before anything else; for `doaj` the
`DOAJExporterXyloseArticle` is built (which may raise on missing
config), and then an unknown command raises `InvalidExporterInitData`
with the command message. -/
def init (cfg : DoajConfig) (now : String) (index command : String)
    (article : Article) : Except PyExc XyloseArticleExporterAdapter := do
  let exp ← if index = "doaj" then
      DOAJExporterXyloseArticle.init cfg article now
    else
      throw (.invalidExporterInitData ("Index informado inválido: " ++ index))
  let cmd ← match command with
    | "export" => pure SingleCommand.export
    | "update" => pure SingleCommand.update
    | "get" => pure SingleCommand.get
    | "delete" => pure SingleCommand.delete
    | _ =>
      throw (.invalidExporterInitData ("Comando informado inválido: " ++ command))
  return { index := index, command := cmd, index_exporter := exp,
           pid := article.code }

/-- The POST response `_export` observes for a given payload. -/
def exportResponse (http : HttpOracle) (a : XyloseArticleExporterAdapter)
    (payload : Obj) : HttpResponse :=
  send_http_request http "post" a.index_exporter.crud_article_put_url
    a.index_exporter.params_request (some (.obj payload))

/-- The 400-only error-detail suffix of `_export`/`_update`:
`" " + self.error_response(resp.json())` when the status is 400 (string
concatenation raises `TypeError` on a non-string detail), `""`
otherwise. -/
def errorDetailSuffix (resp : HttpResponse) : Except PyExc String :=
  if resp.status = 400 then do
    let er ← DOAJExporterXyloseArticle.error_response resp.body
    match er with
    | .s detail => pure (" " ++ detail)
    | _ => throw .typeError
  else pure ""

/-- `_export`: build the POST payload (its construction may raise
before any POST happens), send the POST, translate a 4xx/5xx status
into `IndexExporterHTTPError` with the 400-only detail suffix, and on
success return `post_response` of the body with the pid attached. -/
def exportCmd (search : SearchOracle) (http : HttpOracle)
    (a : XyloseArticleExporterAdapter) : Except PyExc Obj × List Effect :=
  match DOAJExporterXyloseArticle.post_request search a.index_exporter with
  | .error e => (.error e, [])
  | .ok payload =>
    let resp := exportResponse http a payload
    let effs := [Effect.httpCall "post" a.index_exporter.crud_article_put_url]
    if raisesForStatus resp.status then
      ((do
        let detail ← errorDetailSuffix resp
        throw (.indexExporterHTTPError
          ("Erro na exportação ao " ++ a.index ++ ": " ++ resp.errText ++ "."
            ++ detail))), effs)
    else
      ((do
        let pr ← DOAJExporterXyloseArticle.post_response resp.body
        return jSet pr "pid" (.s a.pid)), effs)

/-- `_update`: GET the current representation (raise without detail on
a 4xx/5xx status), merge with `put_request`, PUT (raise with the
400-only detail suffix on a 4xx/5xx status), and return
`{"pid": ..., "status": "UPDATED"}`. -/
def updateCmd (search : SearchOracle) (http : HttpOracle)
    (a : XyloseArticleExporterAdapter) : Except PyExc Obj × List Effect :=
  match DOAJExporterXyloseArticle.crud_article_url a.index_exporter with
  | .error e => (.error e, [])
  | .ok url =>
    let getResp := send_http_request http "get" url
      a.index_exporter.params_request none
    let eff1 := [Effect.httpCall "get" url]
    if raisesForStatus getResp.status then
      (.error (.indexExporterHTTPError
        ("Erro na consulta ao " ++ a.index ++ ": " ++ getResp.errText ++ ".")),
       eff1)
    else
      match DOAJExporterXyloseArticle.put_request search a.index_exporter
        getResp.body with
      | .error e => (.error e, eff1)
      | .ok putReq =>
        let putResp := send_http_request http "put" url
          a.index_exporter.params_request (some (.obj putReq))
        let eff2 := eff1 ++ [Effect.httpCall "put" url]
        if raisesForStatus putResp.status then
          ((do
            let detail ← errorDetailSuffix putResp
            throw (.indexExporterHTTPError
              ("Erro ao atualizar o " ++ a.index ++ ": " ++ putResp.errText
                ++ "." ++ detail))), eff2)
        else
          (.ok [("pid", .s a.pid), ("status", .s "UPDATED")], eff2)

/-- `_get`: GET the representation (raise without detail on a 4xx/5xx
status) and return the body with the pid attached (a non-dict body has
no item assignment). -/
def getCmd (http : HttpOracle) (a : XyloseArticleExporterAdapter) :
    Except PyExc Obj × List Effect :=
  match DOAJExporterXyloseArticle.crud_article_url a.index_exporter with
  | .error e => (.error e, [])
  | .ok url =>
    let getResp := send_http_request http "get" url
      a.index_exporter.params_request none
    let effs := [Effect.httpCall "get" url]
    if raisesForStatus getResp.status then
      (.error (.indexExporterHTTPError
        ("Erro na consulta ao " ++ a.index ++ ": " ++ getResp.errText ++ ".")),
       effs)
    else
      match getResp.body with
      | .obj o => (.ok (jSet o "pid" (.s a.pid)), effs)
      | _ => (.error .typeError, effs)

/-- `_delete`: DELETE the representation (raise without detail on a
4xx/5xx status) and return `{"pid": ..., "status": "DELETED"}`. -/
def deleteCmd (http : HttpOracle) (a : XyloseArticleExporterAdapter) :
    Except PyExc Obj × List Effect :=
  match DOAJExporterXyloseArticle.crud_article_url a.index_exporter with
  | .error e => (.error e, [])
  | .ok url =>
    let delResp := send_http_request http "delete" url
      a.index_exporter.params_request none
    let effs := [Effect.httpCall "delete" url]
    if raisesForStatus delResp.status then
      (.error (.indexExporterHTTPError
        ("Erro ao deletar no " ++ a.index ++ ": " ++ delResp.errText ++ ".")),
       effs)
    else
      (.ok [("pid", .s a.pid), ("status", .s "DELETED")], effs)

/-- `command_function()`: invoke the command method bound at
construction. -/
def commandFunction (search : SearchOracle) (http : HttpOracle)
    (a : XyloseArticleExporterAdapter) : Except PyExc Obj × List Effect :=
  match a.command with
  | .export => exportCmd search http a
  | .update => updateCmd search http a
  | .get => getCmd http a
  | .delete => deleteCmd http a

end XyloseArticleExporterAdapter

/-! ## The bulk exporter adapter (`exporter/main.py`) -/

/-- The bound command method selected by
`XyloseArticlesListExporterAdapter.__init__`; only export and delete
exist in bulk mode. -/
inductive BulkCommand where
  | export | delete
  deriving Repr, DecidableEq

/-- A constructed `XyloseArticlesListExporterAdapter`:
`index_exporters` is the list of `(pid, index_exporter)` entries built
from the input set in its iteration order, fixed at construction. -/
structure XyloseArticlesListExporterAdapter where
  index : String
  command : BulkCommand
  index_exporters : List (String × DOAJExporterXyloseArticle)
  bulk_articles_url : String

/-- One entry of the bulk constructor's list comprehension:
`{"pid": article.data["code"], "index_exporter":
DOAJExporterXyloseArticle(article)}` (a `None` member has no `.data`). -/
def bulkItemOf (cfg : DoajConfig) (now : String) (a? : Option Article) :
    Except PyExc (String × DOAJExporterXyloseArticle) :=
  match a? with
  | none => .error PyExc.attributeError
  | some a =>
    match DOAJExporterXyloseArticle.init cfg a now with
    | .error e => .error e
    | .ok e => .ok (a.code, e)

namespace XyloseArticlesListExporterAdapter

/-- `XyloseArticlesListExporterAdapter.__init__`: an unknown index
raises `InvalidExporterInitData`; for `doaj` the whole
`index_exporters` list comprehension runs first (each entry reads
`article.data["code"]`, so a `None` member raises, and builds a
`DOAJExporterXyloseArticle`), then `self.index_exporters[0]` is read
to obtain the bulk endpoint URL — an `IndexError` on an empty input —
and only then is the command string validated. -/
def init (cfg : DoajConfig) (now : String) (index command : String)
    (articles : List (Option Article)) :
    Except PyExc XyloseArticlesListExporterAdapter := do
  let items ← if index = "doaj" then
      mapMExcept (bulkItemOf cfg now) articles
    else
      throw (.invalidExporterInitData ("Index informado inválido: " ++ index))
  let url ← match items with
    | [] => throw (.indexError "list index out of range")
    | (_, e) :: _ => pure e.bulk_articles_url
  let cmd ← match command with
    | "export" => pure BulkCommand.export
    | "delete" => pure BulkCommand.delete
    | _ =>
      throw (.invalidExporterInitData ("Comando informado inválido: " ++ command))
  return { index := index, command := cmd, index_exporters := items,
           bulk_articles_url := url }

/-- The `params_request` property: the params of
`self.index_exporters[0]` (the list is nonempty after construction). -/
def params_request (a : XyloseArticlesListExporterAdapter) : Obj :=
  match a.index_exporters with
  | [] => []
  | (_, e) :: _ => e.params_request

/-- The `delete_request` property: the `id` of every entry. -/
def delete_request (a : XyloseArticlesListExporterAdapter) : List JVal :=
  a.index_exporters.map fun x => x.2.id

/-- Python iteration over a JSON value, as `zip` consumes the response
body: list elements, dict keys, string characters. -/
def jIterate : JVal → Except PyExc (List JVal)
  | .arr l => .ok l
  | .obj o => .ok (o.map fun kv => .s kv.1)
  | .s v => .ok (v.data.map fun c => .s (String.singleton c))
  | _ => .error .typeError

/-- The bulk `post_response`: zip `index_exporters` with the response
array in iteration order, map each entry through the single
`post_response` and attach its pid. -/
def bulkPostResponse (a : XyloseArticlesListExporterAdapter)
    (response : JVal) : Except PyExc (List Obj) := do
  let rs ← jIterate response
  mapMExcept (fun x => do
    let pr ← DOAJExporterXyloseArticle.post_response x.2
    return jSet pr "pid" (.s x.1.1)) (a.index_exporters.zip rs)

/-- The bulk `error_response`: delegated to `self.index_exporters[0]`
(an `IndexError` on an empty list, which construction rules out). -/
def bulk_error_response (a : XyloseArticlesListExporterAdapter)
    (response : JVal) : Except PyExc JVal :=
  match a.index_exporters with
  | [] => .error (.indexError "list index out of range")
  | _ :: _ => DOAJExporterXyloseArticle.error_response response

/-- The 400-only error-detail suffix of the bulk `_export`:
`" " + self.error_response(resp.json())` when the status is 400 (string
concatenation raises `TypeError` on a non-string detail), `""`
otherwise. -/
def bulkErrorDetailSuffix (a : XyloseArticlesListExporterAdapter)
    (resp : HttpResponse) : Except PyExc String :=
  if resp.status = 400 then do
    let er ← bulk_error_response a resp.body
    match er with
    | .s d => pure (" " ++ d)
    | _ => throw PyExc.typeError
  else pure ""

/-- The POST response the bulk `_export` observes for given payloads. -/
def bulkExportResponse (http : HttpOracle)
    (a : XyloseArticlesListExporterAdapter) (payloads : List Obj) :
    HttpResponse :=
  send_http_request http "post" a.bulk_articles_url a.params_request
    (some (.arr (payloads.map JVal.obj)))

/-- The bulk `_export`: build every per-document payload, POST the
array, translate a 4xx/5xx status with the 400-only detail suffix
(`" " + self.error_response(resp.json())` exactly when the status is
400), and on success zip the response array back to pids. -/
def bulkExportCmd (search : SearchOracle) (http : HttpOracle)
    (a : XyloseArticlesListExporterAdapter) :
    Except PyExc (List Obj) × List Effect :=
  match mapMExcept
      (fun x => DOAJExporterXyloseArticle.post_request search x.2)
      a.index_exporters with
  | .error e => (.error e, [])
  | .ok payloads =>
    let resp := bulkExportResponse http a payloads
    let effs := [Effect.httpCall "post" a.bulk_articles_url]
    if raisesForStatus resp.status then
      ((do
        let detail ← bulkErrorDetailSuffix a resp
        throw (.indexExporterHTTPError
          ("Erro na exportação ao " ++ a.index ++ ": " ++ resp.errText ++ "."
            ++ detail))), effs)
    else
      (bulkPostResponse a resp.body, effs)

/-- The DELETE response the bulk `_delete` observes. -/
def bulkDeleteResponse (http : HttpOracle)
    (a : XyloseArticlesListExporterAdapter) : HttpResponse :=
  send_http_request http "delete" a.bulk_articles_url a.params_request
    (some (.arr a.delete_request))

/-- The bulk `_delete`: DELETE the array of index identifiers; on a
4xx/5xx status the error detail is extracted from the body and
interpolated into the message for EVERY such status (there is no
400-only guard here, unlike `_export`); on success synthesize
`{"pid": ..., "status": "DELETED"}` for every member. -/
def bulkDeleteCmd (http : HttpOracle)
    (a : XyloseArticlesListExporterAdapter) :
    Except PyExc (List Obj) × List Effect :=
  let resp := bulkDeleteResponse http a
  let effs := [Effect.httpCall "delete" a.bulk_articles_url]
  if raisesForStatus resp.status then
    ((do
      let er ← bulk_error_response a resp.body
      throw (.indexExporterHTTPError
        ("Erro ao deletar no " ++ a.index ++ ": " ++ resp.errText ++ ". "
          ++ pyStr er))), effs)
  else
    (.ok (a.index_exporters.map fun x =>
      [("pid", .s x.1), ("status", .s "DELETED")]), effs)

/-- The bulk `command_function()`. -/
def commandFunction (search : SearchOracle) (http : HttpOracle)
    (a : XyloseArticlesListExporterAdapter) :
    Except PyExc (List Obj) × List Effect :=
  match a.command with
  | .export => bulkExportCmd search http a
  | .delete => bulkDeleteCmd http a

end XyloseArticlesListExporterAdapter

/-! ## Job functions and orchestration (`exporter/main.py`) -/

/-- `process_document`: check the poison pill BEFORE any observable
work; fetch the document (raise `ArticleMetaDocumentNotFound` when it
is falsy or its data is falsy); construct the single-document adapter
and run its command function. -/
def process_document (cfg : DoajConfig) (now : String)
    (search : SearchOracle) (http : HttpOracle)
    (getDocument : String → String → Except PyExc (Option Article))
    (index index_command collection pid : String)
    (poison_pill : PoisonPill) : Except PyExc (Option Obj) × List Effect :=
  if poison_pill.poisoned then (.ok none, [])
  else
    match getDocument collection pid with
    | .error e => (.error e, [.getDocumentCall collection pid])
    | .ok none =>
      (.error .articleMetaDocumentNotFound, [.getDocumentCall collection pid])
    | .ok (some doc) =>
      if doc.dataIsEmpty then
        (.error .articleMetaDocumentNotFound, [.getDocumentCall collection pid])
      else
        let effs := [Effect.getDocumentCall collection pid,
                     Effect.adapterCall index index_command]
        match XyloseArticleExporterAdapter.init cfg now index index_command doc with
        | .error e => (.error e, effs)
        | .ok a =>
          let (res, cmdEffs) := a.commandFunction search http
          (res.map some, effs ++ [Effect.commandCall] ++ cmdEffs)

/-- `execute_get_document`: check the poison pill BEFORE any observable
work; fetch the document and return it, raising
`ArticleMetaDocumentNotFound` when it is falsy or its data is falsy. -/
def execute_get_document
    (getDocument : String → String → Except PyExc (Option Article))
    (collection pid : String) (poison_pill : PoisonPill) :
    Except PyExc (Option Article) × List Effect :=
  if poison_pill.poisoned then (.ok none, [])
  else
    match getDocument collection pid with
    | .error e => (.error e, [.getDocumentCall collection pid])
    | .ok none =>
      (.error .articleMetaDocumentNotFound, [.getDocumentCall collection pid])
    | .ok (some doc) =>
      if doc.dataIsEmpty then
        (.error .articleMetaDocumentNotFound, [.getDocumentCall collection pid])
      else
        (.ok (some doc), [.getDocumentCall collection pid])

/-- `log_exception`: one structured error log naming the job's pid. -/
def log_exception (pid : String) : List Effect := [.logError pid]

/-- `json.dumps` of a job result (`None` serializes as `null`). -/
def optObjToJVal : Option Obj → JVal
  | some o => .obj o
  | none => .null

/-- The `write_result` closure of `process_extracted_documents`: when
the output path is a directory, open `{pid}.json` in mode `w`
(overwriting) and dump the result; otherwise open the single output
file in mode `a` and append one JSON line. -/
def write_result (outputIsDir : Bool) (output_path : String)
    (result : Option Obj) (pid : String) : List Effect :=
  if outputIsDir then
    [.writeFileJson (output_path ++ "/" ++ pid ++ ".json") (optObjToJVal result)]
  else
    [.appendJsonLine output_path (optObjToJVal result)]

/-- The effects that completing one job with the given outcome feeds
into the result sink of `process_extracted_documents`: `write_result`
on a normal return, `log_exception` on a raise. -/
def sinkEffectsFor (outputIsDir : Bool) (output_path : String)
    (out : Except PyExc (Option Obj)) (pid : String) : List Effect :=
  match out with
  | .ok r => write_result outputIsDir output_path r pid
  | .error _ => log_exception pid

/-- The job list built from `pids_by_collection`, one job per
`(collection, pid)` pair. -/
def jobsOf : List (String × List String) → List (String × String)
  | [] => []
  | (c, pids) :: rest => pids.map (fun p => (c, p)) ++ jobsOf rest

/-- Concatenation of the images of a list-valued function. -/
def flatMapL {α β : Type} (f : α → List β) : List α → List β
  | [] => []
  | x :: xs => f x ++ flatMapL f xs

/-- `process_extracted_documents`: run one `JobExecutor` over the
per-document jobs with `write_result` as success callback,
`log_exception` as exception callback and a progress tick per job.
`completionOrder` is the order in which `as_completed` yields the
futures (a permutation of the job list in a faithful run). -/
def process_extracted_documents (cfg : DoajConfig) (now : String)
    (search : SearchOracle) (http : HttpOracle)
    (getDocument : String → String → Except PyExc (Option Article))
    (index index_command : String) (outputIsDir : Bool) (output_path : String)
    (_pids_by_collection : List (String × List String))
    (completionOrder : List (String × String)) :
    Except PyExc Unit × List Effect :=
  (.ok (), JobExecutor.dispatch
    { success := fun r j => write_result outputIsDir output_path r j.2
      exception := fun _e j => log_exception j.2
      update_bar := fun _ => [Effect.updateBarTick] }
    (JobExecutor.run
      (fun j pp =>
        process_document cfg now search http getDocument index index_command
          j.1 j.2 pp)
      PoisonPill.new completionOrder))

/-- The `documents` set materialized by the fetch phase of
`process_documents_in_bulk`: the successes of the fetch jobs, in
completion order (distinct fetches produce distinct objects, so the
Python set holds exactly these members). -/
def fetchedDocuments
    (getDocument : String → String → Except PyExc (Option Article))
    (completionOrder : List (String × String)) : List (Option Article) :=
  (JobExecutor.run (fun j pp => execute_get_document getDocument j.1 j.2 pp)
      PoisonPill.new completionOrder).filterMap fun jr =>
    match jr.2.1 with
    | .ok r => some r
    | .error _ => none

/-- The serialized callback effects of the fetch phase of
`process_documents_in_bulk`: its `write_result` only adds each success
to the `documents` set (no file output), and failures are logged. -/
def bulkLoopEffects
    (getDocument : String → String → Except PyExc (Option Article))
    (completionOrder : List (String × String)) : List Effect :=
  JobExecutor.dispatch
    { success := fun _r _j => ([] : List Effect)
      exception := fun _e j => log_exception j.2
      update_bar := fun _ => [Effect.updateBarTick] }
    (JobExecutor.run (fun j pp => execute_get_document getDocument j.1 j.2 pp)
      PoisonPill.new completionOrder)

/-- `process_documents_in_bulk`: first run one `JobExecutor` over
"fetch the document" jobs, the success callback only adding each
result to the `documents` set and failures being logged; then, only
when `documents` is nonempty, construct exactly one bulk adapter over
the whole set, invoke its command function once, and write its result
array to the output file opened in mode `w`, one JSON line per item. -/
def process_documents_in_bulk (cfg : DoajConfig) (now : String)
    (search : SearchOracle) (http : HttpOracle)
    (getDocument : String → String → Except PyExc (Option Article))
    (index index_command : String) (output_path : String)
    (_pids_by_collection : List (String × List String))
    (completionOrder : List (String × String)) :
    Except PyExc Unit × List Effect :=
  if (fetchedDocuments getDocument completionOrder).isEmpty then
    (.ok (), bulkLoopEffects getDocument completionOrder)
  else
    match XyloseArticlesListExporterAdapter.init cfg now index index_command
      (fetchedDocuments getDocument completionOrder) with
    | .error e =>
      (.error e, bulkLoopEffects getDocument completionOrder ++
        [Effect.bulkAdapterCall index index_command
          ((fetchedDocuments getDocument completionOrder).map
            (Option.map Article.code))])
    | .ok a =>
      match a.commandFunction search http with
      | (.error e, cmdEffs) =>
        (.error e, bulkLoopEffects getDocument completionOrder ++
          [Effect.bulkAdapterCall index index_command
            ((fetchedDocuments getDocument completionOrder).map
              (Option.map Article.code))] ++
          [Effect.commandCall] ++ cmdEffs)
      | (.ok lines, cmdEffs) =>
        (.ok (), bulkLoopEffects getDocument completionOrder ++
          [Effect.bulkAdapterCall index index_command
            ((fetchedDocuments getDocument completionOrder).map
              (Option.map Article.code))] ++
          [Effect.commandCall] ++ cmdEffs ++
          [Effect.writeFileLines output_path (lines.map JVal.obj)])

/-! ## Statement helpers and concrete fixtures -/

/-- A successful HTTP status in the 2xx range. -/
def Is2xx (status : Nat) : Prop := 200 ≤ status ∧ status < 300

instance (status : Nat) : Decidable (Is2xx status) := by
  unfold Is2xx; infer_instance

/-- Whether an effect is an adapter construction. -/
def Effect.isAdapterCall : Effect → Bool
  | .adapterCall _ _ => true
  | .bulkAdapterCall _ _ _ => true
  | _ => false

/-- Whether an effect is a `command_function()` invocation. -/
def Effect.isCommandCall : Effect → Bool
  | .commandCall => true
  | _ => false

/-- Whether an effect is an HTTP call. -/
def Effect.isHttpCall : Effect → Bool
  | .httpCall _ _ => true
  | _ => false

/-- Whether an effect writes to the filesystem. -/
def Effect.isFileWrite : Effect → Bool
  | .writeFileJson _ _ => true
  | .appendJsonLine _ _ => true
  | .writeFileLines _ _ => true
  | _ => false

/-- A journal fixture carrying every field the DOAJ schema requires. -/
def fxJournal : JournalRec :=
  { electronic_issn := some "0100-1965"
    print_issn := none
    publisher_country := some ("BR", "Brazil")
    languages := ["pt"]
    publisher_name := some "Instituto"
    title := some "Revista" }

/-- An issue fixture with no number and no supplements. -/
def fxIssue : IssueRec :=
  { number := none, supplement_number := none, supplement_volume := none
    volume := none, sections := [] }

/-- An article fixture for which the DOAJ payload builder succeeds
(one author, a registered issn, a doi, a title, a parseable date). -/
def fxArticle : Article :=
  { code := "S0100-19651998000200002"
    doaj_id := none
    dataIsEmpty := false
    original_abstract := none
    authors := [{ given_names := some "John", surname := some "Doe",
                  xref := none, orcid := none }]
    mixed_affiliations := []
    doi := some "10.1590/x"
    journal := fxJournal
    issue := fxIssue
    start_page := none
    end_page := none
    keywords := []
    original_language := none
    fulltexts := []
    original_title := some "Title"
    section_code := none
    document_publication_date := some "1998-06-01"
    issue_publication_date := none
    document_type := some "research-article" }

/-- A config fixture with both DOAJ variables set. -/
def fxConfig : DoajConfig :=
  { api_url := "https://doaj.org/api/", api_key := "api-key-1234" }

/-- A journal-search oracle returning one registered journal with an
electronic issn. -/
def fxSearch : SearchOracle := fun _ =>
  { status := 200
    body := .obj [("results",
      .arr [.obj [("bibjson", .obj [("eissn", .s "0100-1965")])]])]
    errText := "" }

/-- The `DOAJExporterXyloseArticle` built over the article fixture. -/
def fxExporter : DOAJExporterXyloseArticle :=
  { article := fxArticle
    now := "NOW"
    data := []
    api_url := "https://doaj.org/api/"
    api_key := "api-key-1234" }

/-- The single-document export adapter built over the article fixture. -/
def fxAdapter : XyloseArticleExporterAdapter :=
  { index := "doaj"
    command := .export
    index_exporter := fxExporter
    pid := "S0100-19651998000200002" }

/-- The bulk export adapter built over the one-element article set. -/
def fxBulkAdapter : XyloseArticlesListExporterAdapter :=
  { index := "doaj"
    command := .export
    index_exporters := [("S0100-19651998000200002", fxExporter)]
    bulk_articles_url := "https://doaj.org/api/bulk/articles" }

/-- The bulk delete adapter built over the one-element article set. -/
def fxBulkDeleteAdapter : XyloseArticlesListExporterAdapter :=
  { fxBulkAdapter with command := .delete }

/-- An HTTP transport answering every request with the given response. -/
def constHttp (resp : HttpResponse) : HttpOracle := fun _ _ _ _ => resp

/-- A 400 response whose body carries the service error detail of the
spec's scenario 3. -/
def fx400Response : HttpResponse :=
  { status := 400
    body := .obj [("error", .s "Fake Field is missing.")]
    errText := "HTTP Error" }

/-- A 500 response whose body carries an error detail. -/
def fx500Response : HttpResponse :=
  { status := 500
    body := .obj [("id", .s "doaj-id"), ("error", .s "wrong field.")]
    errText := "HTTP Error" }

/-- A non-2xx, non-error 300 response with a well-formed body. -/
def fx300Response : HttpResponse :=
  { status := 300
    body := .obj [("id", .s "doaj-xyz"), ("status", .s "OK")]
    errText := "" }

/-- A 201 response with a well-formed single-document body. -/
def fx201Response : HttpResponse :=
  { status := 201
    body := .obj [("id", .s "doaj-xyz"), ("status", .s "OK")]
    errText := "" }

/-- A 201 response with a well-formed one-element bulk body. -/
def fx201BulkResponse : HttpResponse :=
  { status := 201
    body := .arr [.obj [("id", .s "doaj-xyz"), ("status", .s "OK")]]
    errText := "" }

/-- A tiny job function for executor witnesses: job 1 succeeds, any
other job raises. -/
def wcFunc : Nat → PoisonPill → Except PyExc Nat × List Effect :=
  fun n _ => (if n = 1 then .ok n else .error .typeError, [])

/-- A fetched DOAJ representation with a `created_date` and an extra
field the exporter never touches. -/
def fxGetBody : Obj :=
  [("id", .s "doaj-1"), ("created_date", .s "2020-01-01"),
   ("admin", .b true)]

/-- The `bibjson` payload that the builder produces for the article
fixture. -/
def fxBibjson : Obj :=
  [("author", .arr [.obj [("name", .s "John Doe")]]),
   ("identifier", .arr
     [.obj [("id", .s "0100-1965"), ("type", .s "eissn")],
      .obj [("id", .s "10.1590/x"), ("type", .s "doi")]]),
   ("journal", .obj
     [("country", .s "BR"), ("language", .arr [.s "pt"]),
      ("publisher", .s "Instituto"), ("title", .s "Revista")]),
   ("title", .s "Title"),
   ("month", .n 6),
   ("year", .n 1998)]

/-- The value of `post_request` over the fixture exporter. -/
def fxPostPayload : Obj :=
  [("created_date", .s "NOW"), ("last_updated", .s "NOW"),
   ("bibjson", .obj fxBibjson), ("es_type", .s "research-article")]

/-- The value of `put_request(fxGetBody)` over the fixture exporter. -/
def fxPutOut : Obj :=
  [("id", .s "doaj-1"),
   ("created_date", .s "2020-01-01"),
   ("admin", .b true),
   ("last_updated", .s "NOW"),
   ("bibjson", .obj fxBibjson),
   ("es_type", .s "research-article")]

/-- A document source whose every fetch comes back empty (so every
fetch job raises `ArticleMetaDocumentNotFound`). -/
def fxGetDocNone : String → String → Except PyExc (Option Article) :=
  fun _ _ => .ok none

/-- A document source returning the article fixture for every pid. -/
def fxGetDocOk : String → String → Except PyExc (Option Article) :=
  fun _ _ => .ok (some fxArticle)

/-- The per-item results of the fixture bulk export. -/
def fxBulkLines : List Obj :=
  [[("index_id", .s "doaj-xyz"), ("status", .s "OK"),
    ("pid", .s "S0100-19651998000200002")]]

/-! ## Library lemmas on the dict operations -/

theorem jGet_jSet_self (d : Obj) (k : String) (v : JVal) :
    jGet (jSet d k v) k = some v := by
  induction d with
  | nil => simp [jSet, jGet]
  | cons kv rest ih =>
    obtain ⟨k', v'⟩ := kv
    by_cases hk : k' = k <;> simp [jSet, jGet, hk, ih]

theorem jGet_jSet_ne (d : Obj) (k k' : String) (v : JVal) (h : k' ≠ k) :
    jGet (jSet d k v) k' = jGet d k' := by
  induction d with
  | nil =>
    simp only [jSet, jGet]
    rw [if_neg (fun hh => h hh.symm)]
  | cons kv rest ih =>
    obtain ⟨k'', v''⟩ := kv
    simp only [jSet]
    by_cases hk : k'' = k
    · subst hk
      rw [if_pos rfl]
      simp only [jGet]
      rw [if_neg (fun hh => h hh.symm), if_neg (fun hh => h hh.symm)]
    · rw [if_neg hk]
      simp only [jGet]
      by_cases hk' : k'' = k'
      · rw [if_pos hk', if_pos hk']
      · rw [if_neg hk', if_neg hk', ih]

theorem jGet_append_singleton (d : Obj) (k k' : String) (v : JVal)
    (h : k' ≠ k) : jGet (d ++ [(k, v)]) k' = jGet d k' := by
  induction d with
  | nil =>
    simp only [List.nil_append, jGet]
    rw [if_neg (fun hh => h hh.symm)]
  | cons kv rest ih =>
    obtain ⟨k'', v''⟩ := kv
    show (if k'' = k' then some v'' else jGet (rest ++ [(k, v)]) k') =
      (if k'' = k' then some v'' else jGet rest k')
    by_cases hk' : k'' = k'
    · rw [if_pos hk', if_pos hk']
    · rw [if_neg hk', if_neg hk', ih]

theorem jGet_jSetdefault_ne (d : Obj) (k k' : String) (v : JVal)
    (h : k' ≠ k) : jGet (jSetdefault d k v) k' = jGet d k' := by
  unfold jSetdefault
  split
  · rfl
  · exact jGet_append_singleton d k k' v h

theorem exceptBind_ok {α β : Type} {x : Except PyExc α}
    {f : α → Except PyExc β} {b : β} (h : x >>= f = Except.ok b) :
    ∃ a, x = Except.ok a ∧ f a = Except.ok b := by
  cases x with
  | error e => exact Except.noConfusion h
  | ok a => exact ⟨a, rfl, h⟩

/-! ## Top-level-key preservation of the bibjson setters -/

theorem modifyBibjson_preserves {f : Obj → Except PyExc Obj} {d d' : Obj}
    (h : modifyBibjson f d = .ok d') {k : String} (hk : k ≠ "bibjson") :
    jGet d' k = jGet d k := by
  unfold modifyBibjson at h
  split at h
  · exact Except.noConfusion h
  · obtain ⟨bj', hf, hpure⟩ := exceptBind_ok h
    obtain rfl : jSet d "bibjson" (.obj bj') = d' := Except.ok.inj hpure
    rw [jGet_jSet_ne _ _ _ _ hk]
  · exact Except.noConfusion h

theorem set_bibjson_abstract_preserves {art : Article} {d d' : Obj}
    (h : set_bibjson_abstract art d = .ok d') {k : String}
    (hk : k ≠ "bibjson") : jGet d' k = jGet d k := by
  unfold set_bibjson_abstract at h
  split at h
  · split at h
    · cases h; rfl
    · exact modifyBibjson_preserves h hk
  · cases h; rfl

theorem set_bibjson_author_preserves {art : Article} {d d' : Obj}
    (h : set_bibjson_author art d = .ok d') {k : String}
    (hk : k ≠ "bibjson") : jGet d' k = jGet d k := by
  unfold set_bibjson_author at h
  split at h
  · exact Except.noConfusion h
  · exact modifyBibjson_preserves h hk

theorem set_bibjson_identifier_preserves {search : SearchOracle}
    {searchUrl : String} {art : Article} {d d' : Obj}
    (h : set_bibjson_identifier search searchUrl art d = .ok d') {k : String}
    (hk : k ≠ "bibjson") : jGet d' k = jGet d k := by
  unfold set_bibjson_identifier at h
  split at h
  · exact Except.noConfusion h
  · exact modifyBibjson_preserves h hk

theorem set_bibjson_journal_preserves {art : Article} {d d' : Obj}
    (h : set_bibjson_journal art d = .ok d') {k : String}
    (hk : k ≠ "bibjson") : jGet d' k = jGet d k := by
  unfold set_bibjson_journal at h
  split at h
  · exact Except.noConfusion h
  · exact modifyBibjson_preserves h hk

theorem set_bibjson_keywords_preserves {art : Article} {d d' : Obj}
    (h : set_bibjson_keywords art d = .ok d') {k : String}
    (hk : k ≠ "bibjson") : jGet d' k = jGet d k := by
  unfold set_bibjson_keywords at h
  split at h
  · cases h; rfl
  · exact modifyBibjson_preserves h hk

theorem set_bibjson_link_preserves {art : Article} {d d' : Obj}
    (h : set_bibjson_link art d = .ok d') {k : String}
    (hk : k ≠ "bibjson") : jGet d' k = jGet d k := by
  unfold set_bibjson_link at h
  exact modifyBibjson_preserves h hk

theorem set_bibjson_title_preserves {art : Article} {d d' : Obj}
    (h : set_bibjson_title art d = .ok d') {k : String}
    (hk : k ≠ "bibjson") : jGet d' k = jGet d k := by
  unfold set_bibjson_title at h
  exact modifyBibjson_preserves h hk

theorem set_bibjson_month_and_year_preserves {art : Article} {d d' : Obj}
    (h : set_bibjson_month_and_year art d = .ok d') {k : String}
    (hk : k ≠ "bibjson") : jGet d' k = jGet d k := by
  unfold set_bibjson_month_and_year at h
  split at h
  · exact Except.noConfusion h
  · split at h
    · exact modifyBibjson_preserves h hk
    · exact modifyBibjson_preserves h hk

theorem set_es_type_preserves {art : Article} {d d' : Obj}
    (h : set_es_type art d = .ok d') {k : String}
    (hk : k ≠ "es_type") : jGet d' k = jGet d k := by
  unfold set_es_type at h
  split at h
  · cases h
    exact jGet_jSet_ne _ _ _ _ hk
  · cases h; rfl

theorem applySetters_preserves {search : SearchOracle} {searchUrl : String}
    {art : Article} {d d' : Obj}
    (h : applySetters search searchUrl art d = .ok d') {k : String}
    (hb : k ≠ "bibjson") (he : k ≠ "es_type") : jGet d' k = jGet d k := by
  unfold applySetters at h
  obtain ⟨d1, h1, h⟩ := exceptBind_ok h
  obtain ⟨d2, h2, h⟩ := exceptBind_ok h
  obtain ⟨d3, h3, h⟩ := exceptBind_ok h
  obtain ⟨d4, h4, h⟩ := exceptBind_ok h
  obtain ⟨d5, h5, h⟩ := exceptBind_ok h
  obtain ⟨d6, h6, h⟩ := exceptBind_ok h
  obtain ⟨d7, h7, h⟩ := exceptBind_ok h
  obtain ⟨d8, h8, h⟩ := exceptBind_ok h
  obtain ⟨d9, h9, hp⟩ := exceptBind_ok h
  obtain rfl : d9 = d' := Except.ok.inj hp
  calc jGet d9 k = jGet d8 k := set_es_type_preserves h9 he
    _ = jGet d7 k := set_bibjson_month_and_year_preserves h8 hb
    _ = jGet d6 k := set_bibjson_title_preserves h7 hb
    _ = jGet d5 k := set_bibjson_link_preserves h6 hb
    _ = jGet d4 k := set_bibjson_keywords_preserves h5 hb
    _ = jGet d3 k := set_bibjson_journal_preserves h4 hb
    _ = jGet d2 k := set_bibjson_identifier_preserves h3 hb
    _ = jGet d1 k := set_bibjson_author_preserves h2 hb
    _ = jGet d k := set_bibjson_abstract_preserves h1 hb

/-! ## Executor trace lemmas -/

theorem runTrace_nil {α ρ : Type}
    (func : α → PoisonPill → Except PyExc ρ × List Effect) (pp : PoisonPill) :
    JobExecutor.runTrace func pp [] = [] := rfl

theorem runTrace_cons {α ρ : Type}
    (func : α → PoisonPill → Except PyExc ρ × List Effect) (pp : PoisonPill)
    (j : α) (rest : List α) :
    JobExecutor.runTrace func pp (j :: rest) =
      JobExecutor.callbackOf func pp j :: .updateBar ::
        JobExecutor.runTrace func pp rest := by
  unfold JobExecutor.runTrace JobExecutor.run JobExecutor.callbackOf
  rcases hf : func j pp with ⟨out, effs⟩
  cases out <;>
    simp [JobExecutor.dispatch, JobExecutor.traceCallbacks, hf, List.map]

theorem isCallback_updateBar {α ρ : Type} :
    (JobExecutor.CallbackEvent.updateBar :
      JobExecutor.CallbackEvent α ρ).isCallback = false := rfl

theorem isBar_updateBar {α ρ : Type} :
    (JobExecutor.CallbackEvent.updateBar :
      JobExecutor.CallbackEvent α ρ).isBar = true := rfl

theorem jobOf_updateBar {α ρ : Type} :
    (JobExecutor.CallbackEvent.updateBar :
      JobExecutor.CallbackEvent α ρ).jobOf = none := rfl

theorem callbackOf_isCallback {α ρ : Type}
    (func : α → PoisonPill → Except PyExc ρ × List Effect) (pp : PoisonPill)
    (j : α) : (JobExecutor.callbackOf func pp j).isCallback = true := by
  unfold JobExecutor.callbackOf
  rcases (func j pp).1 with _ | _ <;> rfl

theorem callbackOf_isBar {α ρ : Type}
    (func : α → PoisonPill → Except PyExc ρ × List Effect) (pp : PoisonPill)
    (j : α) : (JobExecutor.callbackOf func pp j).isBar = false := by
  unfold JobExecutor.callbackOf
  rcases (func j pp).1 with _ | _ <;> rfl

theorem callbackOf_jobOf {α ρ : Type}
    (func : α → PoisonPill → Except PyExc ρ × List Effect) (pp : PoisonPill)
    (j : α) : (JobExecutor.callbackOf func pp j).jobOf = some j := by
  unfold JobExecutor.callbackOf
  rcases (func j pp).1 with _ | _ <;> rfl

theorem runTrace_countP_callback {α ρ : Type}
    (func : α → PoisonPill → Except PyExc ρ × List Effect) (pp : PoisonPill)
    (order : List α) :
    (JobExecutor.runTrace func pp order).countP (fun e => e.isCallback) =
      order.length := by
  induction order with
  | nil => rfl
  | cons j rest ih =>
    rw [runTrace_cons]
    simp only [List.countP_cons, callbackOf_isCallback, isCallback_updateBar, ih]
    simp [Nat.add_comm, Nat.add_assoc]

theorem runTrace_countP_bar {α ρ : Type}
    (func : α → PoisonPill → Except PyExc ρ × List Effect) (pp : PoisonPill)
    (order : List α) :
    (JobExecutor.runTrace func pp order).countP (fun e => e.isBar) =
      order.length := by
  induction order with
  | nil => rfl
  | cons j rest ih =>
    rw [runTrace_cons]
    simp only [List.countP_cons, callbackOf_isBar, isBar_updateBar, ih]
    simp [Nat.add_comm, Nat.add_assoc]

theorem runTrace_filter_callback {α ρ : Type}
    (func : α → PoisonPill → Except PyExc ρ × List Effect) (pp : PoisonPill)
    (order : List α) :
    (JobExecutor.runTrace func pp order).filter (fun e => e.isCallback) =
      order.map (JobExecutor.callbackOf func pp) := by
  induction order with
  | nil => rfl
  | cons j rest ih =>
    rw [runTrace_cons]
    simp only [List.filter_cons, callbackOf_isCallback, isCallback_updateBar, ih]
    simp

theorem runTrace_countP_job {α ρ : Type} [DecidableEq α]
    (func : α → PoisonPill → Except PyExc ρ × List Effect) (pp : PoisonPill)
    (order : List α) (j : α) :
    (JobExecutor.runTrace func pp order).countP
        (fun e => decide (e.jobOf = some j)) =
      order.countP (fun x => decide (x = j)) := by
  induction order with
  | nil => rfl
  | cons j' rest ih =>
    rw [runTrace_cons]
    simp only [List.countP_cons, callbackOf_jobOf, jobOf_updateBar, ih]
    by_cases hj : j' = j
    · subst hj; simp
    · simp [hj]

/-! ## Claims C1, C2, C3 -/

/-- C1: for every job list of length N run by `JobExecutor.run` (its
completion loop observing the submitted jobs in some completion order),
the returned-normally trace contains exactly N success/exception
callback invocations and exactly N progress ticks; each job triggers
exactly one callback, namely its success callback with its result when
the job function returns and its exception callback with the raised
exception and the job's argument mapping when it raises; an empty job
list yields an empty trace (zero callbacks and no error). -/
theorem claim_C1_executor_callback_counts {α ρ : Type} [DecidableEq α]
    (func : α → PoisonPill → Except PyExc ρ × List Effect) (pp : PoisonPill)
    (jobs completionOrder : List α) (hperm : completionOrder.Perm jobs) :
    (JobExecutor.runTrace func pp completionOrder).countP
        (fun e => e.isCallback) = jobs.length ∧
    (JobExecutor.runTrace func pp completionOrder).countP
        (fun e => e.isBar) = jobs.length ∧
    (∀ j : α,
      (JobExecutor.runTrace func pp completionOrder).countP
          (fun e => decide (e.jobOf = some j)) =
        jobs.countP (fun x => decide (x = j))) ∧
    (JobExecutor.runTrace func pp completionOrder).filter
        (fun e => e.isCallback) =
      completionOrder.map (JobExecutor.callbackOf func pp) ∧
    (jobs = [] → JobExecutor.runTrace func pp completionOrder = []) := by
  refine ⟨?_, ?_, ?_, ?_, ?_⟩
  · rw [runTrace_countP_callback, hperm.length_eq]
  · rw [runTrace_countP_bar, hperm.length_eq]
  · intro j
    rw [runTrace_countP_job, hperm.countP_eq]
  · exact runTrace_filter_callback func pp completionOrder
  · intro hnil
    subst hnil
    rw [hperm.eq_nil, runTrace_nil]

/-- Witness for C1: two jobs completing in reverse submission order,
one returning normally and one raising. -/
theorem claim_C1_executor_callback_counts_witness :
    (JobExecutor.runTrace wcFunc PoisonPill.new [2, 1]).countP
        (fun e => e.isCallback) = 2 ∧
    (JobExecutor.runTrace wcFunc PoisonPill.new [2, 1]).countP
        (fun e => e.isBar) = 2 ∧
    (JobExecutor.runTrace wcFunc PoisonPill.new [2, 1]).countP
        (fun e => decide (e.jobOf = some 1)) = 1 ∧
    (JobExecutor.runTrace wcFunc PoisonPill.new [2, 1]).filter
        (fun e => e.isCallback) =
      [JobExecutor.callbackOf wcFunc PoisonPill.new 2,
       JobExecutor.callbackOf wcFunc PoisonPill.new 1] := by
  have h := claim_C1_executor_callback_counts wcFunc PoisonPill.new
    [1, 2] [2, 1] (by decide)
  exact ⟨h.1, h.2.1, h.2.2.1 1, h.2.2.2.1⟩

/-- C2 (code bug): translated literally, the `KeyboardInterrupt`
handler of `JobExecutor.run` logs "Finalizando...", re-raises the
interrupt, and executes `self.poisoned = True` — an attribute
assignment on the executor object itself — so the shared
`poison_pill.poisoned` flag that every job checks remains `false`.
This theorem evaluates the handler on an executor with a fresh pill,
exhibiting the divergence from the claimed `poison_pill` poisoning. -/
theorem claim_C2_interrupt_never_poisons_pill {α ρ ε : Type}
    (func : α → PoisonPill → Except PyExc ρ × List Effect)
    (cb : JobExecutor.Callbacks α ρ ε) (completed : List α) :
    (JobExecutor.runInterrupted JobExecutor.State.new func cb
        completed).logged = ["Finalizando..."] ∧
    (JobExecutor.runInterrupted JobExecutor.State.new func cb
        completed).reraisedKeyboardInterrupt = true ∧
    (JobExecutor.runInterrupted JobExecutor.State.new func cb
        completed).final.poisoned_attr = some true ∧
    (JobExecutor.runInterrupted JobExecutor.State.new func cb
        completed).final.poison_pill.poisoned = false :=
  ⟨rfl, rfl, rfl, rfl⟩

/-- C3: a job function entered with a poisoned pill returns `None`
immediately, with no document fetch, no adapter construction, no
command invocation and no HTTP call (an empty effect list), for both
`process_document` and `execute_get_document`. -/
theorem claim_C3_poisoned_jobs_no_work (cfg : DoajConfig) (now : String)
    (search : SearchOracle) (http : HttpOracle)
    (getDocument : String → String → Except PyExc (Option Article))
    (index index_command collection pid : String) (pp : PoisonPill)
    (h : pp.poisoned = true) :
    process_document cfg now search http getDocument index index_command
        collection pid pp = (.ok none, []) ∧
    execute_get_document getDocument collection pid pp = (.ok none, []) := by
  obtain ⟨b⟩ := pp
  cases h
  exact ⟨rfl, rfl⟩

@[simp] theorem exceptOkBind {α β : Type} (a : α)
    (f : α → Except PyExc β) : (Except.ok a >>= f) = f a := rfl

@[simp] theorem exceptErrorBind {α β : Type} (e : PyExc)
    (f : α → Except PyExc β) :
    ((Except.error e : Except PyExc α) >>= f) = Except.error e := rfl

@[simp] theorem exceptPureEq {α : Type} (a : α) :
    (pure a : Except PyExc α) = Except.ok a := rfl

@[simp] theorem exceptThrowEq {α : Type} (e : PyExc) :
    (throw e : Except PyExc α) = Except.error e := rfl

/-- With both config variables set, building a
`DOAJExporterXyloseArticle` always succeeds. -/
theorem doajInit_ok (cfg : DoajConfig) (a : Article) (now : String)
    (hurl : cfg.api_url.isEmpty = false) (hkey : cfg.api_key.isEmpty = false) :
    DOAJExporterXyloseArticle.init cfg a now =
      .ok { article := a, now := now
            data := if truthyS a.doaj_id then
                [("id", .s (a.doaj_id.getD ""))]
              else []
            api_url := cfg.api_url, api_key := cfg.api_key } := by
  unfold DOAJExporterXyloseArticle.init
  simp [hurl, hkey]

/-- With both config variables set, the bulk constructor's list
comprehension succeeds on any list of present articles, and keeps its
length. -/
theorem mapMExcept_bulkItemOf_ok (cfg : DoajConfig) (now : String)
    (hurl : cfg.api_url.isEmpty = false) (hkey : cfg.api_key.isEmpty = false)
    (articles : List (Option Article))
    (hsome : ∀ x ∈ articles, x.isSome = true) :
    ∃ items, mapMExcept (bulkItemOf cfg now) articles = .ok items ∧
      items.length = articles.length := by
  induction articles with
  | nil => exact ⟨[], rfl, rfl⟩
  | cons x xs ih =>
    obtain ⟨a, rfl⟩ :=
      Option.isSome_iff_exists.mp (hsome x (List.mem_cons_self x xs))
    obtain ⟨items, hitems, hlen⟩ :=
      ih fun y hy => hsome y (List.mem_cons_of_mem _ hy)
    refine ⟨(a.code,
      { article := a, now := now
        data := if truthyS a.doaj_id then
            [("id", .s (a.doaj_id.getD ""))]
          else []
        api_url := cfg.api_url, api_key := cfg.api_key }) :: items,
      ?_, by simp [hlen]⟩
    have hitem : bulkItemOf cfg now (some a) = .ok (a.code,
        { article := a, now := now
          data := if truthyS a.doaj_id then
              [("id", .s (a.doaj_id.getD ""))]
            else []
          api_url := cfg.api_url, api_key := cfg.api_key }) := by
      simp only [bulkItemOf]
      rw [doajInit_ok cfg a now hurl hkey]
    unfold mapMExcept
    rw [hitem, hitems]

/-- C8: round-trip of the `update` command payload — `put_request`
over any fetched representation preserves every top-level field except
the explicitly rewritten ones (`last_updated`, refreshed to the
adapter's timestamp; `bibjson`, merged; `es_type`); in particular
`created_date` survives unchanged and `last_updated` equals `_now`. -/
theorem claim_C8_put_request_roundtrip (search : SearchOracle)
    (e : DOAJExporterXyloseArticle) (get_body out : Obj)
    (h : DOAJExporterXyloseArticle.put_request search e (.obj get_body) =
      .ok out) :
    (∀ k : String, k ≠ "last_updated" → k ≠ "bibjson" → k ≠ "es_type" →
      jGet out k = jGet get_body k) ∧
    jGet out "created_date" = jGet get_body "created_date" ∧
    jGet out "last_updated" = some (.s e.now) := by
  unfold DOAJExporterXyloseArticle.put_request at h
  refine ⟨?_, ?_, ?_⟩
  · intro k h1 h2 h3
    rw [applySetters_preserves h h2 h3,
        jGet_jSetdefault_ne _ _ _ _ h2,
        jGet_jSet_ne _ _ _ _ h1]
  · rw [applySetters_preserves h (by decide) (by decide),
        jGet_jSetdefault_ne _ _ _ _ (by decide),
        jGet_jSet_ne _ _ _ _ (by decide)]
  · rw [applySetters_preserves h (by decide) (by decide),
        jGet_jSetdefault_ne _ _ _ _ (by decide),
        jGet_jSet_self]

/-- Witness for C8: the fixture exporter over a representation holding
an `id`, a `created_date` and an `admin` field; the untouched `admin`
field and `created_date` survive, `last_updated` is refreshed. -/
theorem claim_C8_put_request_roundtrip_witness :
    jGet fxPutOut "admin" = jGet fxGetBody "admin" ∧
    jGet fxPutOut "created_date" = jGet fxGetBody "created_date" ∧
    jGet fxPutOut "last_updated" = some (.s "NOW") := by
  have h := claim_C8_put_request_roundtrip fxSearch fxExporter fxGetBody
    fxPutOut (by rfl)
  exact ⟨h.1 "admin" (by decide) (by decide) (by decide), h.2.1, h.2.2⟩

/-- The two construction-failure messages can never coincide,
whatever the index and command strings are. -/
theorem index_msg_ne_command_msg (i c : String) :
    ("Index informado inválido: " ++ i : String) ≠
      "Comando informado inválido: " ++ c := by
  intro hEq
  have hd := congrArg String.data hEq
  rw [String.data_append, String.data_append] at hd
  simp at hd

/-- C6: adapter construction fails with `InvalidExporterInitData` for
every unknown index (both variants) and for every unknown command,
with distinct messages identifying which of the two was invalid; in
the bulk variant every command other than `export`/`delete` — so in
particular `get` and `update` — fails construction, while the
single-document variant accepts all four of
export/update/get/delete. -/
theorem claim_C6_init_validation (cfg : DoajConfig) (now : String)
    (article : Article) (articles : List (Option Article))
    (hurl : cfg.api_url.isEmpty = false) (hkey : cfg.api_key.isEmpty = false)
    (hsome : ∀ x ∈ articles, x.isSome = true) (hne : articles ≠ []) :
    (∀ index command : String, index ≠ "doaj" →
      XyloseArticleExporterAdapter.init cfg now index command article =
        .error (.invalidExporterInitData
          ("Index informado inválido: " ++ index)) ∧
      XyloseArticlesListExporterAdapter.init cfg now index command articles =
        .error (.invalidExporterInitData
          ("Index informado inválido: " ++ index))) ∧
    (∀ command : String, command ≠ "export" → command ≠ "update" →
      command ≠ "get" → command ≠ "delete" →
      XyloseArticleExporterAdapter.init cfg now "doaj" command article =
        .error (.invalidExporterInitData
          ("Comando informado inválido: " ++ command))) ∧
    (∀ command : String, command ≠ "export" → command ≠ "delete" →
      XyloseArticlesListExporterAdapter.init cfg now "doaj" command articles =
        .error (.invalidExporterInitData
          ("Comando informado inválido: " ++ command))) ∧
    ((XyloseArticleExporterAdapter.init cfg now "doaj" "export"
        article).isOk = true ∧
     (XyloseArticleExporterAdapter.init cfg now "doaj" "update"
        article).isOk = true ∧
     (XyloseArticleExporterAdapter.init cfg now "doaj" "get"
        article).isOk = true ∧
     (XyloseArticleExporterAdapter.init cfg now "doaj" "delete"
        article).isOk = true) ∧
    (∀ i c : String, ("Index informado inválido: " ++ i : String) ≠
      "Comando informado inválido: " ++ c) := by
  refine ⟨?_, ?_, ?_, ⟨?_, ?_, ?_, ?_⟩, index_msg_ne_command_msg⟩
  · intro index command hidx
    constructor
    · unfold XyloseArticleExporterAdapter.init
      rw [if_neg hidx]
      simp
    · unfold XyloseArticlesListExporterAdapter.init
      rw [if_neg hidx]
      simp
  · intro command h1 h2 h3 h4
    unfold XyloseArticleExporterAdapter.init
    rw [if_pos rfl, doajInit_ok cfg article now hurl hkey]
    simp only [exceptOkBind]
    split <;> simp_all
  · intro command h1 h2
    obtain ⟨items, hitems, hlen⟩ :=
      mapMExcept_bulkItemOf_ok cfg now hurl hkey articles hsome
    unfold XyloseArticlesListExporterAdapter.init
    rw [if_pos rfl, hitems]
    simp only [exceptOkBind]
    cases items with
    | nil =>
      exfalso
      cases articles with
      | nil => exact hne rfl
      | cons y ys => simp at hlen
    | cons item rest =>
      obtain ⟨pid0, e0⟩ := item
      split <;> simp_all
  all_goals
    unfold XyloseArticleExporterAdapter.init
    rw [if_pos rfl, doajInit_ok cfg article now hurl hkey]
    simp [Except.isOk, Except.toBool]

/-- Witness for C6: the invalid index `elsevier`, the bulk-invalid
commands `update` and `get`, and the single-document `update`
acceptance, all over the fixtures. -/
theorem claim_C6_init_validation_witness :
    XyloseArticleExporterAdapter.init fxConfig "NOW" "elsevier" "export"
        fxArticle =
      .error (.invalidExporterInitData "Index informado inválido: elsevier") ∧
    XyloseArticlesListExporterAdapter.init fxConfig "NOW" "doaj" "update"
        [some fxArticle] =
      .error (.invalidExporterInitData "Comando informado inválido: update") ∧
    XyloseArticlesListExporterAdapter.init fxConfig "NOW" "doaj" "get"
        [some fxArticle] =
      .error (.invalidExporterInitData "Comando informado inválido: get") ∧
    (XyloseArticleExporterAdapter.init fxConfig "NOW" "doaj" "update"
        fxArticle).isOk = true := by
  have h := claim_C6_init_validation fxConfig "NOW" fxArticle
    [some fxArticle] rfl rfl (by simp) (by simp)
  exact ⟨(h.1 "elsevier" "export" (by decide)).1,
    h.2.2.1 "update" (by decide) (by decide),
    h.2.2.1 "get" (by decide) (by decide),
    h.2.2.2.1.2.1⟩

/-- C10: constructing the bulk adapter with index `doaj` over an empty
article set does not raise `InvalidExporterInitData`; the constructor
reads `self.index_exporters[0]` for the bulk endpoint URL before
validating the command, so it raises an `IndexError`, and construction
never succeeds on an empty set — a non-empty set is a precondition. -/
theorem claim_C10_bulk_empty_set_index_error (cfg : DoajConfig)
    (now command : String) :
    XyloseArticlesListExporterAdapter.init cfg now "doaj" command [] =
      .error (.indexError "list index out of range") ∧
    (∀ msg, (PyExc.indexError "list index out of range") ≠
      .invalidExporterInitData msg) ∧
    (∀ a, XyloseArticlesListExporterAdapter.init cfg now "doaj" command [] ≠
      .ok a) := by
  have h1 : XyloseArticlesListExporterAdapter.init cfg now "doaj" command [] =
      .error (.indexError "list index out of range") := by
    unfold XyloseArticlesListExporterAdapter.init
    rw [if_pos rfl]
    simp [mapMExcept]
  refine ⟨h1, fun msg h => PyExc.noConfusion h, fun a h => ?_⟩
  rw [h1] at h
  exact Except.noConfusion h

theorem string_append_empty (s : String) : s ++ "" = s := by
  obtain ⟨l⟩ := s
  show String.mk (l ++ []) = String.mk l
  rw [List.append_nil]

/-- Once the POST payload is built, `_export` is the response
translation over the POST response. -/
theorem exportCmd_eq (a : XyloseArticleExporterAdapter)
    (search : SearchOracle) (http : HttpOracle) (payload : Obj)
    (hpay : DOAJExporterXyloseArticle.post_request search a.index_exporter =
      .ok payload) :
    XyloseArticleExporterAdapter.exportCmd search http a =
      (if raisesForStatus
          (XyloseArticleExporterAdapter.exportResponse http a payload).status
        then
          (XyloseArticleExporterAdapter.errorDetailSuffix
              (XyloseArticleExporterAdapter.exportResponse http a payload) >>=
            fun detail =>
              throw (.indexExporterHTTPError
                ("Erro na exportação ao " ++ a.index ++ ": " ++
                  (XyloseArticleExporterAdapter.exportResponse http a
                    payload).errText ++ "." ++ detail)),
           [Effect.httpCall "post" a.index_exporter.crud_article_put_url])
        else
          (DOAJExporterXyloseArticle.post_response
              (XyloseArticleExporterAdapter.exportResponse http a
                payload).body >>=
            fun pr => pure (jSet pr "pid" (.s a.pid)),
           [Effect.httpCall "post" a.index_exporter.crud_article_put_url])) := by
  unfold XyloseArticleExporterAdapter.exportCmd
  rw [hpay]

/-- C4 (amended): for the single-document export command, once the POST
payload has been built, a response with status in 400..599 (exactly the
statuses `raise_for_status` raises for) produces an
`IndexExporterHTTPError` whose message carries the service error detail
extracted from the body, appended after the period and a space, exactly
when the status is 400, and carries no body detail for every other
raising status; for every non-raising status (all 2xx included) the
result is the builder's `post_response` mapping of the body with the
originating pid attached under `pid`. -/
theorem claim_C4_single_export_error_detail
    (a : XyloseArticleExporterAdapter) (search : SearchOracle)
    (http : HttpOracle) (payload : Obj)
    (hpay : DOAJExporterXyloseArticle.post_request search a.index_exporter =
      .ok payload) :
    (∀ body detail,
      (XyloseArticleExporterAdapter.exportResponse http a payload).status =
        400 →
      (XyloseArticleExporterAdapter.exportResponse http a payload).body =
        .obj body →
      jGet body "error" = some (.s detail) →
      (XyloseArticleExporterAdapter.exportCmd search http a).1 =
        .error (.indexExporterHTTPError
          ("Erro na exportação ao " ++ a.index ++ ": " ++
            (XyloseArticleExporterAdapter.exportResponse http a
              payload).errText ++ "." ++ (" " ++ detail)))) ∧
    (raisesForStatus
        (XyloseArticleExporterAdapter.exportResponse http a payload).status =
          true →
      (XyloseArticleExporterAdapter.exportResponse http a payload).status ≠
        400 →
      (XyloseArticleExporterAdapter.exportCmd search http a).1 =
        .error (.indexExporterHTTPError
          ("Erro na exportação ao " ++ a.index ++ ": " ++
            (XyloseArticleExporterAdapter.exportResponse http a
              payload).errText ++ "."))) ∧
    (∀ body,
      raisesForStatus
        (XyloseArticleExporterAdapter.exportResponse http a payload).status =
          false →
      (XyloseArticleExporterAdapter.exportResponse http a payload).body =
        .obj body →
      (XyloseArticleExporterAdapter.exportCmd search http a).1 =
        .ok (jSet [("index_id", (jGet body "id").getD .null),
                   ("status", (jGet body "status").getD .null)]
          "pid" (.s a.pid))) := by
  rw [exportCmd_eq a search http payload hpay]
  refine ⟨?_, ?_, ?_⟩
  · intro body detail h400 hbody herr
    have hraise : raisesForStatus
        (XyloseArticleExporterAdapter.exportResponse http a payload).status =
          true := by rw [h400]; rfl
    rw [if_pos hraise]
    unfold XyloseArticleExporterAdapter.errorDetailSuffix
    rw [if_pos h400, hbody]
    simp only [DOAJExporterXyloseArticle.error_response, herr,
      Option.getD_some, exceptOkBind, exceptPureEq, exceptThrowEq]
  · intro hraise hne400
    rw [if_pos hraise]
    unfold XyloseArticleExporterAdapter.errorDetailSuffix
    rw [if_neg hne400]
    simp only [exceptPureEq, exceptOkBind, exceptThrowEq,
      string_append_empty]
  · intro body hnoraise hbody
    rw [if_neg (by rw [hnoraise]; exact Bool.false_ne_true), hbody]
    simp only [DOAJExporterXyloseArticle.post_response, exceptOkBind,
      exceptPureEq]

/-- C4 counterexample: the claim as stated requires every non-2xx POST
response to raise `IndexExporterHTTPError`; a 300 response is non-2xx,
yet `raise_for_status` does not raise for it, and so the export command
returns the success mapping instead of raising. -/
theorem claim_C4_counterexample_status_300 :
    ¬ Is2xx fx300Response.status ∧
    (XyloseArticleExporterAdapter.exportCmd fxSearch
        (constHttp fx300Response) fxAdapter).1 =
      .ok [("index_id", .s "doaj-xyz"), ("status", .s "OK"),
           ("pid", .s "S0100-19651998000200002")] :=
  ⟨by decide, by rfl⟩

/-- Witness for C4: the spec's scenario 3 — a 400 response whose body
is `error: "Fake Field is missing."` yields exactly the message
`Erro na exportação ao doaj: HTTP Error. Fake Field is missing.` — and
a 201 response yields the success mapping with the pid attached. -/
theorem claim_C4_single_export_error_detail_witness :
    (XyloseArticleExporterAdapter.exportCmd fxSearch
        (constHttp fx400Response) fxAdapter).1 =
      .error (.indexExporterHTTPError
        "Erro na exportação ao doaj: HTTP Error. Fake Field is missing.") ∧
    (XyloseArticleExporterAdapter.exportCmd fxSearch
        (constHttp fx201Response) fxAdapter).1 =
      .ok [("index_id", .s "doaj-xyz"), ("status", .s "OK"),
           ("pid", .s "S0100-19651998000200002")] := by
  have h400 := claim_C4_single_export_error_detail fxAdapter fxSearch
    (constHttp fx400Response) fxPostPayload (by rfl)
  have h201 := claim_C4_single_export_error_detail fxAdapter fxSearch
    (constHttp fx201Response) fxPostPayload (by rfl)
  exact ⟨h400.1 [("error", .s "Fake Field is missing.")]
      "Fake Field is missing." rfl rfl rfl,
    h201.2.2 [("id", .s "doaj-xyz"), ("status", .s "OK")] rfl rfl⟩

/-- The bulk `error_response` over a constructed (nonempty) adapter is
the DOAJ `error` field extraction. -/
theorem bulk_error_response_cons (a : XyloseArticlesListExporterAdapter)
    (item : String × DOAJExporterXyloseArticle)
    (rest : List (String × DOAJExporterXyloseArticle))
    (hexp : a.index_exporters = item :: rest) (body : Obj) :
    XyloseArticlesListExporterAdapter.bulk_error_response a (.obj body) =
      .ok ((jGet body "error").getD (.s "")) := by
  unfold XyloseArticlesListExporterAdapter.bulk_error_response
  rw [hexp]
  simp [DOAJExporterXyloseArticle.error_response]

/-- Once every per-document payload is built, the bulk `_export` is the
response translation over the bulk POST response. -/
theorem bulkExportCmd_eq (a : XyloseArticlesListExporterAdapter)
    (search : SearchOracle) (http : HttpOracle) (payloads : List Obj)
    (hpayloads : mapMExcept
      (fun x => DOAJExporterXyloseArticle.post_request search x.2)
      a.index_exporters = .ok payloads) :
    XyloseArticlesListExporterAdapter.bulkExportCmd search http a =
      (if raisesForStatus
          (XyloseArticlesListExporterAdapter.bulkExportResponse http a
            payloads).status
        then
          (XyloseArticlesListExporterAdapter.bulkErrorDetailSuffix a
              (XyloseArticlesListExporterAdapter.bulkExportResponse http a
                payloads) >>=
            fun detail =>
              throw (.indexExporterHTTPError
                ("Erro na exportação ao " ++ a.index ++ ": " ++
                  (XyloseArticlesListExporterAdapter.bulkExportResponse http a
                    payloads).errText ++ "." ++ detail)),
           [Effect.httpCall "post" a.bulk_articles_url])
        else
          (XyloseArticlesListExporterAdapter.bulkPostResponse a
            (XyloseArticlesListExporterAdapter.bulkExportResponse http a
              payloads).body,
           [Effect.httpCall "post" a.bulk_articles_url])) := by
  unfold XyloseArticlesListExporterAdapter.bulkExportCmd
  rw [hpayloads]

/-- C5 (amended): the bulk export command follows the single-document
400-specific rule — over the raising statuses 400..599, the
service-provided detail from the body is appended exactly when the
status is 400 — but the bulk delete command does NOT: it extracts the
body detail and appends it to the raised message for EVERY raising
status, not only 400. -/
theorem claim_C5_bulk_error_detail (a : XyloseArticlesListExporterAdapter)
    (search : SearchOracle) (http : HttpOracle) (payloads : List Obj)
    (item : String × DOAJExporterXyloseArticle)
    (rest : List (String × DOAJExporterXyloseArticle))
    (hexp : a.index_exporters = item :: rest)
    (hpayloads : mapMExcept
      (fun x => DOAJExporterXyloseArticle.post_request search x.2)
      a.index_exporters = .ok payloads) :
    (∀ body detail,
      (XyloseArticlesListExporterAdapter.bulkExportResponse http a
        payloads).status = 400 →
      (XyloseArticlesListExporterAdapter.bulkExportResponse http a
        payloads).body = .obj body →
      jGet body "error" = some (.s detail) →
      (XyloseArticlesListExporterAdapter.bulkExportCmd search http a).1 =
        .error (.indexExporterHTTPError
          ("Erro na exportação ao " ++ a.index ++ ": " ++
            (XyloseArticlesListExporterAdapter.bulkExportResponse http a
              payloads).errText ++ "." ++ (" " ++ detail)))) ∧
    (raisesForStatus
        (XyloseArticlesListExporterAdapter.bulkExportResponse http a
          payloads).status = true →
      (XyloseArticlesListExporterAdapter.bulkExportResponse http a
        payloads).status ≠ 400 →
      (XyloseArticlesListExporterAdapter.bulkExportCmd search http a).1 =
        .error (.indexExporterHTTPError
          ("Erro na exportação ao " ++ a.index ++ ": " ++
            (XyloseArticlesListExporterAdapter.bulkExportResponse http a
              payloads).errText ++ "."))) ∧
    (∀ body detail,
      raisesForStatus
        (XyloseArticlesListExporterAdapter.bulkDeleteResponse http a).status =
          true →
      (XyloseArticlesListExporterAdapter.bulkDeleteResponse http a).body =
        .obj body →
      jGet body "error" = some (.s detail) →
      (XyloseArticlesListExporterAdapter.bulkDeleteCmd http a).1 =
        .error (.indexExporterHTTPError
          ("Erro ao deletar no " ++ a.index ++ ": " ++
            (XyloseArticlesListExporterAdapter.bulkDeleteResponse http
              a).errText ++ ". " ++ detail))) := by
  refine ⟨?_, ?_, ?_⟩
  · intro body detail h400 hbody herr
    rw [bulkExportCmd_eq a search http payloads hpayloads]
    have hraise : raisesForStatus
        (XyloseArticlesListExporterAdapter.bulkExportResponse http a
          payloads).status = true := by rw [h400]; rfl
    rw [if_pos hraise]
    unfold XyloseArticlesListExporterAdapter.bulkErrorDetailSuffix
    rw [if_pos h400, hbody, bulk_error_response_cons a item rest hexp body]
    simp only [herr, Option.getD_some, exceptOkBind, exceptPureEq,
      exceptThrowEq]
  · intro hraise hne400
    rw [bulkExportCmd_eq a search http payloads hpayloads]
    rw [if_pos hraise]
    unfold XyloseArticlesListExporterAdapter.bulkErrorDetailSuffix
    rw [if_neg hne400]
    simp only [exceptPureEq, exceptOkBind, exceptThrowEq,
      string_append_empty]
  · intro body detail hraise hbody herr
    unfold XyloseArticlesListExporterAdapter.bulkDeleteCmd
    rw [if_pos hraise, hbody, bulk_error_response_cons a item rest hexp body]
    simp only [herr, Option.getD_some, exceptOkBind, exceptThrowEq, pyStr]

/-- C5 counterexample: the claim as stated requires the detail to be
appended if and only if the status is exactly 400; the bulk delete
command on a 500 response whose body carries `error: "wrong field."`
nevertheless appends the detail (this is also what the repository's own
test `test_delete_raises_exception_if_delete_raises_http_error`
asserts). -/
theorem claim_C5_counterexample_delete_500 :
    fx500Response.status = 500 ∧
    (XyloseArticlesListExporterAdapter.bulkDeleteCmd
        (constHttp fx500Response) fxBulkDeleteAdapter).1 =
      .error (.indexExporterHTTPError
        "Erro ao deletar no doaj: HTTP Error. wrong field.") :=
  ⟨rfl, by rfl⟩

/-- Witness for C5: the bulk export on a 400 response appends the
detail, on a 500 response it does not; the bulk delete appends the
detail on a 500 response. -/
theorem claim_C5_bulk_error_detail_witness :
    (XyloseArticlesListExporterAdapter.bulkExportCmd fxSearch
        (constHttp fx400Response) fxBulkAdapter).1 =
      .error (.indexExporterHTTPError
        "Erro na exportação ao doaj: HTTP Error. Fake Field is missing.") ∧
    (XyloseArticlesListExporterAdapter.bulkExportCmd fxSearch
        (constHttp fx500Response) fxBulkAdapter).1 =
      .error (.indexExporterHTTPError
        "Erro na exportação ao doaj: HTTP Error.") ∧
    (XyloseArticlesListExporterAdapter.bulkDeleteCmd
        (constHttp fx500Response) fxBulkDeleteAdapter).1 =
      .error (.indexExporterHTTPError
        "Erro ao deletar no doaj: HTTP Error. wrong field.") := by
  have h400 := claim_C5_bulk_error_detail fxBulkAdapter fxSearch
    (constHttp fx400Response) [fxPostPayload]
    ("S0100-19651998000200002", fxExporter) [] rfl (by rfl)
  have h500 := claim_C5_bulk_error_detail fxBulkAdapter fxSearch
    (constHttp fx500Response) [fxPostPayload]
    ("S0100-19651998000200002", fxExporter) [] rfl (by rfl)
  have hdel := claim_C5_bulk_error_detail fxBulkDeleteAdapter fxSearch
    (constHttp fx500Response) [fxPostPayload]
    ("S0100-19651998000200002", fxExporter) [] rfl (by rfl)
  exact ⟨h400.1 [("error", .s "Fake Field is missing.")]
      "Fake Field is missing." rfl rfl rfl,
    h500.2.1 rfl (by decide),
    hdel.2.2 [("id", .s "doaj-id"), ("error", .s "wrong field.")]
      "wrong field." rfl rfl rfl⟩

theorem run_cons {α ρ : Type}
    (func : α → PoisonPill → Except PyExc ρ × List Effect) (pp : PoisonPill)
    (j : α) (rest : List α) :
    JobExecutor.run func pp (j :: rest) =
      (j, func j pp) :: JobExecutor.run func pp rest := rfl

/-- The serialized callback loop over a completion order is the
concatenation of each job's callback output followed by its progress
tick. -/
theorem dispatch_run_eq_flat {α ρ ε : Type}
    (cb : JobExecutor.Callbacks α ρ ε)
    (func : α → PoisonPill → Except PyExc ρ × List Effect)
    (pp : PoisonPill) (order : List α) :
    JobExecutor.dispatch cb (JobExecutor.run func pp order) =
      flatMapL (fun j =>
        (match (func j pp).1 with
         | .ok r => cb.success r j
         | .error e => cb.exception e j) ++ cb.update_bar ()) order := by
  induction order with
  | nil => rfl
  | cons j rest ih =>
    rw [run_cons]
    rcases hf : func j pp with ⟨out, effs⟩
    cases out <;> simp [JobExecutor.dispatch, flatMapL, hf, ih]

theorem countP_flatMapL_zero {α β : Type} (p : β → Bool) (f : α → List β)
    (l : List α) (h : ∀ x, (f x).countP p = 0) :
    (flatMapL f l).countP p = 0 := by
  induction l with
  | nil => rfl
  | cons x xs ih => simp [flatMapL, List.countP_append, h x, ih]

theorem flatMapL_congr {α β : Type} {f g : α → List β} (l : List α)
    (h : ∀ x, f x = g x) : flatMapL f l = flatMapL g l := by
  induction l with
  | nil => rfl
  | cons x xs ih => simp [flatMapL, h x, ih]

/-- The fetch-phase callback effects are only logs and progress ticks,
so they contain no adapter construction, no command invocation, no
HTTP call and no file write. -/
theorem bulkLoopEffects_countP_zero
    (getDocument : String → String → Except PyExc (Option Article))
    (order : List (String × String)) (p : Effect → Bool)
    (hlog : ∀ pid, p (.logError pid) = false)
    (hbar : p .updateBarTick = false) :
    (bulkLoopEffects getDocument order).countP p = 0 := by
  unfold bulkLoopEffects
  rw [dispatch_run_eq_flat]
  refine countP_flatMapL_zero p _ order fun j => ?_
  cases hout : (execute_get_document getDocument j.1 j.2 PoisonPill.new).1 <;>
    simp [log_exception, List.countP_cons, List.countP_append, hlog, hbar]

/-- The bulk command functions perform at most one HTTP call and no
other observable effect. -/
theorem bulkCommand_effect_kinds (a : XyloseArticlesListExporterAdapter)
    (search : SearchOracle) (http : HttpOracle) (p : Effect → Bool)
    (hhttp : ∀ m u, p (.httpCall m u) = false) :
    ((XyloseArticlesListExporterAdapter.commandFunction search http
      a).2).countP p = 0 := by
  rcases a with ⟨aindex, acmd, items, url⟩
  cases acmd <;>
    simp only [XyloseArticlesListExporterAdapter.commandFunction]
  · unfold XyloseArticlesListExporterAdapter.bulkExportCmd
    split
    · rfl
    · dsimp only
      split <;> simp [List.countP_cons, hhttp]
  · unfold XyloseArticlesListExporterAdapter.bulkDeleteCmd
    dsimp only
    split <;> simp [List.countP_cons, hhttp]

/-- C9: result sinking in `process_extracted_documents` — the run
returns normally and its serialized callback effects are, per job in
completion order: for a successfully processed item, exactly one sink
effect (when the output location is a directory, one mode-`w`
overwrite of the file `{pid}.json` holding the item's result;
otherwise one JSON line appended in mode `a` to the single output
file), and for an item whose job raised, no output effect but exactly
one logged error naming the pid; each followed by its progress tick. -/
theorem claim_C9_result_sinking (cfg : DoajConfig) (now : String)
    (search : SearchOracle) (http : HttpOracle)
    (getDocument : String → String → Except PyExc (Option Article))
    (index index_command : String) (outputIsDir : Bool)
    (output_path : String) (pbc : List (String × List String))
    (order : List (String × String)) :
    process_extracted_documents cfg now search http getDocument index
        index_command outputIsDir output_path pbc order =
      (.ok (), flatMapL (fun j =>
        sinkEffectsFor outputIsDir output_path
          (process_document cfg now search http getDocument index
            index_command j.1 j.2 PoisonPill.new).1 j.2 ++
        [Effect.updateBarTick]) order) ∧
    (∀ (r : Option Obj) (pid : String),
      sinkEffectsFor outputIsDir output_path (.ok r) pid =
        if outputIsDir then
          [Effect.writeFileJson (output_path ++ "/" ++ pid ++ ".json")
            (optObjToJVal r)]
        else [Effect.appendJsonLine output_path (optObjToJVal r)]) ∧
    (∀ (e : PyExc) (pid : String),
      sinkEffectsFor outputIsDir output_path (.error e) pid =
        [Effect.logError pid]) := by
  refine ⟨?_, fun r pid => rfl, fun e pid => rfl⟩
  unfold process_extracted_documents
  rw [dispatch_run_eq_flat]
  refine congrArg (Prod.mk (Except.ok ())) ?_
  refine flatMapL_congr order fun j => ?_
  cases h : (process_document cfg now search http getDocument index
      index_command j.1 j.2 PoisonPill.new).1 <;>
    simp [sinkEffectsFor, h]

/-- C7: the bulk orchestration — when the fetch phase yields zero
documents, the run returns with only the fetch-loop effects: no bulk
adapter is constructed, the command function is never invoked, and no
file is written; when the fetched set is nonempty and the bulk command
succeeds, exactly one bulk adapter is constructed over the entire
fetched set, the command function is invoked exactly once, and the
returned array is written to the output file as one JSON line per
item, in one mode-`w` write. -/
theorem claim_C7_bulk_orchestration (cfg : DoajConfig) (now : String)
    (search : SearchOracle) (http : HttpOracle)
    (getDocument : String → String → Except PyExc (Option Article))
    (index index_command output_path : String)
    (pbc : List (String × List String))
    (order : List (String × String)) :
    (fetchedDocuments getDocument order = [] →
      process_documents_in_bulk cfg now search http getDocument index
          index_command output_path pbc order =
        (.ok (), bulkLoopEffects getDocument order) ∧
      (bulkLoopEffects getDocument order).countP Effect.isAdapterCall = 0 ∧
      (bulkLoopEffects getDocument order).countP Effect.isCommandCall = 0 ∧
      (bulkLoopEffects getDocument order).countP Effect.isFileWrite = 0) ∧
    (∀ (a : XyloseArticlesListExporterAdapter) (lines : List Obj)
        (cmdEffs : List Effect),
      fetchedDocuments getDocument order ≠ [] →
      XyloseArticlesListExporterAdapter.init cfg now index index_command
        (fetchedDocuments getDocument order) = .ok a →
      a.commandFunction search http = (.ok lines, cmdEffs) →
      process_documents_in_bulk cfg now search http getDocument index
          index_command output_path pbc order =
        (.ok (), bulkLoopEffects getDocument order ++
          [Effect.bulkAdapterCall index index_command
            ((fetchedDocuments getDocument order).map
              (Option.map Article.code))] ++
          [Effect.commandCall] ++ cmdEffs ++
          [Effect.writeFileLines output_path (lines.map JVal.obj)]) ∧
      (process_documents_in_bulk cfg now search http getDocument index
          index_command output_path pbc order).2.countP
        Effect.isAdapterCall = 1 ∧
      (process_documents_in_bulk cfg now search http getDocument index
          index_command output_path pbc order).2.countP
        Effect.isCommandCall = 1 ∧
      (process_documents_in_bulk cfg now search http getDocument index
          index_command output_path pbc order).2.countP
        Effect.isFileWrite = 1) := by
  constructor
  · intro hempty
    refine ⟨?_, ?_, ?_, ?_⟩
    · unfold process_documents_in_bulk
      rw [hempty]
      rfl
    · exact bulkLoopEffects_countP_zero _ _ _ (fun _ => rfl) rfl
    · exact bulkLoopEffects_countP_zero _ _ _ (fun _ => rfl) rfl
    · exact bulkLoopEffects_countP_zero _ _ _ (fun _ => rfl) rfl
  · intro a lines cmdEffs hne hinit hcmd
    have hne' : (fetchedDocuments getDocument order).isEmpty = false := by
      cases hfd : fetchedDocuments getDocument order with
      | nil => exact absurd hfd hne
      | cons d ds => rfl
    have heq : process_documents_in_bulk cfg now search http getDocument
        index index_command output_path pbc order =
      (.ok (), bulkLoopEffects getDocument order ++
        [Effect.bulkAdapterCall index index_command
          ((fetchedDocuments getDocument order).map
            (Option.map Article.code))] ++
        [Effect.commandCall] ++ cmdEffs ++
        [Effect.writeFileLines output_path (lines.map JVal.obj)]) := by
      unfold process_documents_in_bulk
      rw [hne', hinit]
      simp only [Bool.false_eq_true, if_false, hcmd]
    have hcmdEffs : ∀ p : Effect → Bool,
        (∀ m u, p (.httpCall m u) = false) → cmdEffs.countP p = 0 := by
      intro p hp
      have h2 : (XyloseArticlesListExporterAdapter.commandFunction search
          http a).2 = cmdEffs := by rw [hcmd]
      rw [← h2]
      exact bulkCommand_effect_kinds a search http p hp
    have hloop1 : (bulkLoopEffects getDocument order).countP
        Effect.isAdapterCall = 0 :=
      bulkLoopEffects_countP_zero getDocument order Effect.isAdapterCall
        (fun _ => rfl) rfl
    have hloop2 : (bulkLoopEffects getDocument order).countP
        Effect.isCommandCall = 0 :=
      bulkLoopEffects_countP_zero getDocument order Effect.isCommandCall
        (fun _ => rfl) rfl
    have hloop3 : (bulkLoopEffects getDocument order).countP
        Effect.isFileWrite = 0 :=
      bulkLoopEffects_countP_zero getDocument order Effect.isFileWrite
        (fun _ => rfl) rfl
    have hcmd1 : cmdEffs.countP Effect.isAdapterCall = 0 :=
      hcmdEffs Effect.isAdapterCall fun _ _ => rfl
    have hcmd2 : cmdEffs.countP Effect.isCommandCall = 0 :=
      hcmdEffs Effect.isCommandCall fun _ _ => rfl
    have hcmd3 : cmdEffs.countP Effect.isFileWrite = 0 :=
      hcmdEffs Effect.isFileWrite fun _ _ => rfl
    refine ⟨heq, ?_, ?_, ?_⟩ <;>
      rw [heq] <;>
      simp [List.countP_append, List.countP_cons, hloop1, hloop2, hloop3,
        hcmd1, hcmd2, hcmd3, Effect.isAdapterCall, Effect.isCommandCall,
        Effect.isFileWrite]

/-- Witness for C7: a one-job run whose only fetch fails makes no bulk
call and writes nothing; a one-job run whose fetch succeeds constructs
the bulk adapter once, runs the command once (one HTTP call), and
writes the result lines in one mode-`w` write. -/
theorem claim_C7_bulk_orchestration_witness :
    (process_documents_in_bulk fxConfig "NOW" fxSearch
        (constHttp fx201BulkResponse) fxGetDocNone "doaj" "export" "out.log"
        [("scl", ["p1"])] [("scl", "p1")] =
      (.ok (), bulkLoopEffects fxGetDocNone [("scl", "p1")]) ∧
      (bulkLoopEffects fxGetDocNone [("scl", "p1")]).countP
        Effect.isAdapterCall = 0 ∧
      (bulkLoopEffects fxGetDocNone [("scl", "p1")]).countP
        Effect.isCommandCall = 0 ∧
      (bulkLoopEffects fxGetDocNone [("scl", "p1")]).countP
        Effect.isFileWrite = 0) ∧
    (process_documents_in_bulk fxConfig "NOW" fxSearch
        (constHttp fx201BulkResponse) fxGetDocOk "doaj" "export" "out.log"
        [("scl", ["p1"])] [("scl", "p1")] =
      (.ok (), bulkLoopEffects fxGetDocOk [("scl", "p1")] ++
        [Effect.bulkAdapterCall "doaj" "export"
          ((fetchedDocuments fxGetDocOk [("scl", "p1")]).map
            (Option.map Article.code))] ++
        [Effect.commandCall] ++
        [Effect.httpCall "post" "https://doaj.org/api/bulk/articles"] ++
        [Effect.writeFileLines "out.log" (fxBulkLines.map JVal.obj)]) ∧
      (process_documents_in_bulk fxConfig "NOW" fxSearch
          (constHttp fx201BulkResponse) fxGetDocOk "doaj" "export" "out.log"
          [("scl", ["p1"])] [("scl", "p1")]).2.countP
        Effect.isAdapterCall = 1 ∧
      (process_documents_in_bulk fxConfig "NOW" fxSearch
          (constHttp fx201BulkResponse) fxGetDocOk "doaj" "export" "out.log"
          [("scl", ["p1"])] [("scl", "p1")]).2.countP
        Effect.isCommandCall = 1 ∧
      (process_documents_in_bulk fxConfig "NOW" fxSearch
          (constHttp fx201BulkResponse) fxGetDocOk "doaj" "export" "out.log"
          [("scl", ["p1"])] [("scl", "p1")]).2.countP
        Effect.isFileWrite = 1) := by
  constructor
  · exact (claim_C7_bulk_orchestration fxConfig "NOW" fxSearch
      (constHttp fx201BulkResponse) fxGetDocNone "doaj" "export" "out.log"
      [("scl", ["p1"])] [("scl", "p1")]).1 (by rfl)
  · exact (claim_C7_bulk_orchestration fxConfig "NOW" fxSearch
      (constHttp fx201BulkResponse) fxGetDocOk "doaj" "export" "out.log"
      [("scl", ["p1"])] [("scl", "p1")]).2 fxBulkAdapter fxBulkLines
      [Effect.httpCall "post" "https://doaj.org/api/bulk/articles"]
      (fun h => List.noConfusion
        (show (some fxArticle :: []) = ([] : List (Option Article)) from h))
      (by rfl) (by rfl)

/-- Witness for C3: a poisoned pill on concrete inputs. -/
theorem claim_C3_poisoned_jobs_no_work_witness :
    process_document fxConfig "NOW" fxSearch (constHttp fx201Response)
        (fun _ _ => .ok (some fxArticle)) "doaj" "export" "scl" "pid-1"
        ⟨true⟩ = (.ok none, []) ∧
    execute_get_document (fun _ _ => .ok (some fxArticle)) "scl" "pid-1"
        ⟨true⟩ = (.ok none, []) :=
  claim_C3_poisoned_jobs_no_work fxConfig "NOW" fxSearch
    (constHttp fx201Response) (fun _ _ => .ok (some fxArticle)) "doaj"
    "export" "scl" "pid-1" ⟨true⟩ rfl

end ScieloDoaj
